import Mathlib

/-!
Verification development for the RUNSTR Android asset-generation scripts:
`create_circular_android_icons.py`, `generate_splash_screens.py` and
`scale_android_icons.py`.

The scripts manipulate RGBA raster images through the PIL library and a
small fixed table of Android density buckets.  We embed the image data
model, the three per-file operations (`create_circular_icon`,
`generate_splash_logo`, `scale_icon`) and the three `main` entry points
(as folds over a list of guarded write jobs against an abstract
filesystem).  Library resampling (`Image.Resampling.LANCZOS`) is not part
of the repository; it is embedded as an arbitrary sampling kernel
parameter, with a concrete nearest-neighbour kernel used to instantiate
witnesses.
-/

/-- An RGBA pixel; each channel is a byte value 0..255. -/
structure RGBA where
  r : Nat
  g : Nat
  b : Nat
  a : Nat
deriving DecidableEq, Repr

/-- The fully transparent pixel, `(0, 0, 0, 0)` in the scripts. -/
def clearPix : RGBA := ⟨0, 0, 0, 0⟩

/-- Opaque black, the fill colour `#000000` of the icon background circle. -/
def blackPix : RGBA := ⟨0, 0, 0, 255⟩

/-- A raster image: a width, a height and a pixel map.  Only coordinates
`x < width`, `y < height` are meaningful. -/
structure Img where
  width : Nat
  height : Nat
  pix : Nat → Nat → RGBA

/-- `Image.new("RGBA", (w, h), c)`: a fresh canvas filled with one colour. -/
def Img.new (w h : Nat) (c : RGBA) : Img := ⟨w, h, fun _ _ => c⟩

/-- Raster of `ImageDraw.ellipse([0, 0, n-1, n-1])` on an `n` by `n`
canvas: the disc with centre `((n-1)/2, (n-1)/2)` and radius `(n-1)/2`.
A pixel `(x, y)` lies in the disc when
`(2x-(n-1))^2 + (2y-(n-1))^2 <= (n-1)^2` (the inequality scaled by 4 to
stay in integers). -/
def inEllipse (x y n : Nat) : Bool :=
  decide ((2 * (x : Int) - ((n : Int) - 1)) ^ 2 + (2 * (y : Int) - ((n : Int) - 1)) ^ 2
    ≤ ((n : Int) - 1) ^ 2)

/-- `draw.ellipse([0, 0, size-1, size-1], fill=c, outline=None)` on a
square canvas: pixels inside the inscribed disc take colour `c`, the rest
keep their previous colour. -/
def drawCircle (img : Img) (c : RGBA) : Img :=
  ⟨img.width, img.height, fun x y => if inEllipse x y img.width then c else img.pix x y⟩

/-- One channel of the PIL mask blend: `dest + (src - dest) * m / 255`,
computed as `(dest * (255 - m) + src * m) / 255`.  For the two mask
values the scripts produce (0 and 255) this selects exactly `dest`
resp. `src`. -/
def blendc (d s m : Nat) : Nat := (d * (255 - m) + s * m) / 255

/-- Mask blend of two pixels, applied channel-wise (PIL blends every band,
the alpha band included, by the mask value). -/
def blendPix (d s : RGBA) (m : Nat) : RGBA :=
  ⟨blendc d.r s.r m, blendc d.g s.g m, blendc d.b s.b m, blendc d.a s.a m⟩

/-- A resampling kernel: given the source pixel map, the source
dimensions, the destination dimensions and a destination coordinate, it
produces the resampled pixel.  `Image.resize(..., LANCZOS)` is a library
primitive, so the embedding is parametric in the kernel; every kernel
returns an image of exactly the requested dimensions, which is the
guarantee PIL gives. -/
def Kernel : Type :=
  (Nat → Nat → RGBA) → Nat → Nat → Nat → Nat → Nat → Nat → RGBA

/-- `img.resize((w, h), kernel)`. -/
def Img.resize (k : Kernel) (img : Img) (w h : Nat) : Img :=
  ⟨w, h, fun x y => k img.pix img.width img.height w h x y⟩

/-- A concrete resampling kernel (nearest neighbour), used to instantiate
the parametric kernel on concrete inputs. -/
def nearestK : Kernel :=
  fun p sw sh dw dh x y => p (x * sw / dw) (y * sh / dh)

/-- `dest.paste(src, (ox, oy), mask)`: for a destination pixel `(x, y)`
lying over the pasted region, blend the destination pixel with the source
pixel `(x - ox, y - oy)` by the mask value at that source coordinate;
other pixels are unchanged.  Offsets may be negative, in which case the
parts of `src` that fall outside the destination are clipped (their
pixels are simply never consulted). -/
def pasteMask (dest src : Img) (ox oy : Int) (maskAt : Nat → Nat → Nat) : Img :=
  ⟨dest.width, dest.height, fun x y =>
    let sx : Int := (x : Int) - ox
    let sy : Int := (y : Int) - oy
    if 0 ≤ sx ∧ sx < (src.width : Int) ∧ 0 ≤ sy ∧ sy < (src.height : Int) then
      blendPix (dest.pix x y) (src.pix sx.toNat sy.toNat) (maskAt sx.toNat sy.toNat)
    else dest.pix x y⟩

/-! ## The three image operations -/

/-- `LOGO_SCALE = 0.72`: the resized logo edge is `int(size * 0.72)`.
For every size in the density tables (48, 72, 96, 144, 192) the float
product is not an integer and the float truncation agrees with the exact
rational floor `size * 72 / 100`, which is how it is embedded. -/
def logoSize (size : Nat) : Nat := size * 72 / 100

/-- `position = ((size - logo_size) // 2, (size - logo_size) // 2)`;
`logo_size <= size`, so plain natural division matches Python floor
division. -/
def logoPos (size : Nat) : Nat := (size - logoSize size) / 2

/-- `create_circular_icon(source, output, size, is_round)` from
`create_circular_android_icons.py`: transparent canvas, black disc,
source logo resized to 72 percent of the edge and pasted centred with its
own alpha as mask; for the round variant the whole composite is re-pasted
onto a fresh transparent canvas through a hard circular `L` mask. -/
def create_circular_icon (k : Kernel) (logo : Img) (size : Nat) (is_round : Bool) : Img :=
  let canvas := drawCircle (Img.new size size clearPix) blackPix
  let logo_resized := Img.resize k logo (logoSize size) (logoSize size)
  let composed := pasteMask canvas logo_resized (logoPos size) (logoPos size)
    (fun u v => (logo_resized.pix u v).a)
  if is_round then
    pasteMask (Img.new size size clearPix) composed 0 0
      (fun u v => if inEllipse u v size then 255 else 0)
  else composed

/-- `generate_splash_logo(source, output, size)` from
`generate_splash_screens.py`: a plain resize of the (RGBA-converted)
source to the square target size. -/
def generate_splash_logo (k : Kernel) (img : Img) (size : Nat) : Img :=
  Img.resize k img size size

/-- `SCALE_FACTOR = 2.0`: `new_size = int(canvas_size * 2.0)` is exactly
`2 * canvas_size` (the float product of a small integer with 2.0 is
exact). -/
def scNewSize (canvas_size : Nat) : Nat := 2 * canvas_size

/-- `offset = (canvas_size - new_size) // 2`: Python floor division on a
negative dividend, embedded with `Int.fdiv`. -/
def scOffset (canvas_size : Nat) : Int :=
  Int.fdiv ((canvas_size : Int) - (scNewSize canvas_size : Int)) 2

/-- `scale_icon(input, output, canvas_size)` from
`scale_android_icons.py`: resize the icon to twice the canvas edge, then
paste it at the (negative) centring offset onto a fresh transparent
canvas of the original size, with the scaled image alpha as mask. -/
def scale_icon (k : Kernel) (img : Img) (canvas_size : Nat) : Img :=
  let img_scaled := Img.resize k img (scNewSize canvas_size) (scNewSize canvas_size)
  let canvas := Img.new canvas_size canvas_size clearPix
  pasteMask canvas img_scaled (scOffset canvas_size) (scOffset canvas_size)
    (fun u v => (img_scaled.pix u v).a)

/-! ## Filesystem model and the three entry points

The scripts touch the filesystem through `os.path.exists`, `Image.open`
and `Image.save` only.  The filesystem is a map from path strings to an
existence bit and an image content; a save makes the path exist and
replaces its content.  Each `main` is a fold over a fixed list of guarded
write jobs (one job per output file, in the exact order of the Python
loops), threading the filesystem and the list of printed warning/error
lines.  Informational banner and success prints are not modelled; the
log holds the error and warning lines the claims are about. -/

structure FS where
  pathExists : String → Bool
  img : String → Img

/-- `canvas.save(path)`: the path now exists and holds the image. -/
def FS.write (fs : FS) (p : String) (i : Img) : FS :=
  ⟨fun q => if q = p then true else fs.pathExists q,
   fun q => if q = p then i else fs.img q⟩

/-- `SOURCE_LOGO` of `create_circular_android_icons.py`
(`os.path.expanduser` kept unexpanded; it is only a name here). -/
def SOURCE_LOGO : String := "~/Desktop/RUNSTR LOGO FINAL/expo/icon.png"

/-- `SOURCE_LOGO` of `generate_splash_screens.py`. -/
def SPLASH_SOURCE : String := "~/Desktop/RUNSTR LOGO FINAL/expo/splash-icon.png"

/-- `BASE_PATH = 'android/app/src/main/res'`. -/
def BASE_PATH : String := "android/app/src/main/res"

/-- `ICON_SIZES` from `create_circular_android_icons.py`. -/
def ICON_SIZES : List (String × Nat) :=
  [("mdpi", 48), ("hdpi", 72), ("xhdpi", 96), ("xxhdpi", 144), ("xxxhdpi", 192)]

/-- `SPLASH_SIZES` from `generate_splash_screens.py`. -/
def SPLASH_SIZES : List (String × Nat) :=
  [("mdpi", 300), ("hdpi", 450), ("xhdpi", 600), ("xxhdpi", 900), ("xxxhdpi", 1200)]

/-- `DENSITIES` from `scale_android_icons.py` (same table as `ICON_SIZES`). -/
def DENSITIES : List (String × Nat) :=
  [("mdpi", 48), ("hdpi", 72), ("xhdpi", 96), ("xxhdpi", 144), ("xxxhdpi", 192)]

/-- The two file names iterated by `scale_android_icons.py`. -/
def ICON_NAMES : List String := ["ic_launcher.png", "ic_launcher_round.png"]

def mipmapDir (d : String) : String := BASE_PATH ++ "/mipmap-" ++ d

def standardPath (d : String) : String := mipmapDir d ++ "/ic_launcher.png"

def roundPath (d : String) : String := mipmapDir d ++ "/ic_launcher_round.png"

def drawableDir (d : String) : String := BASE_PATH ++ "/drawable-" ++ d

def drawableNightDir (d : String) : String := BASE_PATH ++ "/drawable-night-" ++ d

def splashLightPath (d : String) : String := drawableDir d ++ "/splashscreen_logo.png"

def splashDarkPath (d : String) : String := drawableNightDir d ++ "/splashscreen_logo.png"

def iconPath (d n : String) : String := mipmapDir d ++ "/" ++ n

/-- Warning printed by the circular icon generator for a missing mipmap
directory (the leading warning-sign glyph of the f-string is elided). -/
def ciWarnMsg (d : String) : String := "Warning: " ++ mipmapDir d ++ " not found, skipping..."

/-- Error printed by the circular icon generator for a missing source. -/
def ciErrMsg : String := "Error: Source logo not found at " ++ SOURCE_LOGO

/-- Warning printed by the splash generator for a missing drawable dir. -/
def spWarnMsg (dir : String) : String := "Warning: " ++ dir ++ " not found, skipping..."

/-- Error printed by the splash generator for a missing source. -/
def spErrMsg : String := "Error: Source logo not found at " ++ SPLASH_SOURCE

/-- Warning printed by the icon upscaler for a missing icon file. -/
def scWarnMsg (p : String) : String := "Warning: " ++ p ++ " not found, skipping..."

/-- One guarded write: check that `guard` exists; if so, read `src`,
apply `f` and save the result at `out` (logging `made`); otherwise leave
the filesystem alone and log `warn` when there is one. -/
structure Job where
  guard : String
  src : String
  out : String
  f : Img → Img
  warn : Option String
  made : String

def jobStep (st : FS × List String) (j : Job) : FS × List String :=
  if st.1.pathExists j.guard = true then
    (st.1.write j.out (j.f (st.1.img j.src)), st.2 ++ [j.made])
  else (st.1, st.2 ++ j.warn.toList)

def runJobs (jobs : List Job) (st : FS × List String) : FS × List String :=
  jobs.foldl jobStep st

/-- The standard-icon job of one `ICON_SIZES` iteration of
`create_circular_android_icons.main` (with an else warning). -/
def ciJobStd (k : Kernel) (p : String × Nat) : Job :=
  ⟨mipmapDir p.1, SOURCE_LOGO, standardPath p.1,
    fun i => create_circular_icon k i p.2 false,
    some (ciWarnMsg p.1), "Created circular standard icon for " ++ p.1⟩

/-- The round-icon job of the same iteration; its existence check has no
else branch in the source, so it carries no warning. -/
def ciJobRnd (k : Kernel) (p : String × Nat) : Job :=
  ⟨mipmapDir p.1, SOURCE_LOGO, roundPath p.1,
    fun i => create_circular_icon k i p.2 true,
    none, "Created circular round icon for " ++ p.1⟩

def ciJobsOf (k : Kernel) (p : String × Nat) : List Job :=
  [ciJobStd k p, ciJobRnd k p]

def ciJobs (k : Kernel) : List Job := ICON_SIZES.flatMap (ciJobsOf k)

/-- `main` of `create_circular_android_icons.py`. -/
def ci_main (k : Kernel) (fs : FS) : FS × List String :=
  if fs.pathExists SOURCE_LOGO = true then runJobs (ciJobs k) (fs, [])
  else (fs, [ciErrMsg])

/-- The light-mode job of one `SPLASH_SIZES` iteration of
`generate_splash_screens.main`, guarded by the `drawable-` directory. -/
def spJobLight (k : Kernel) (p : String × Nat) : Job :=
  ⟨drawableDir p.1, SPLASH_SOURCE, splashLightPath p.1,
    fun i => generate_splash_logo k i p.2,
    some (spWarnMsg (drawableDir p.1)), "Generated splash logo for " ++ p.1⟩

/-- The dark-mode job of the same iteration, independently guarded by the
`drawable-night-` directory with its own warning. -/
def spJobDark (k : Kernel) (p : String × Nat) : Job :=
  ⟨drawableNightDir p.1, SPLASH_SOURCE, splashDarkPath p.1,
    fun i => generate_splash_logo k i p.2,
    some (spWarnMsg (drawableNightDir p.1)), "Generated splash logo for " ++ p.1⟩

def spJobsOf (k : Kernel) (p : String × Nat) : List Job :=
  [spJobLight k p, spJobDark k p]

def spJobs (k : Kernel) : List Job := SPLASH_SIZES.flatMap (spJobsOf k)

/-- `main` of `generate_splash_screens.py`. -/
def sp_main (k : Kernel) (fs : FS) : FS × List String :=
  if fs.pathExists SPLASH_SOURCE = true then runJobs (spJobs k) (fs, [])
  else (fs, [spErrMsg])

/-- One job of `scale_android_icons.main`: guard is the icon file itself,
which is both read and overwritten in place. -/
def scJobOf (k : Kernel) (p : String × Nat) (n : String) : Job :=
  ⟨iconPath p.1 n, iconPath p.1 n, iconPath p.1 n,
    fun i => scale_icon k i p.2,
    some (scWarnMsg (iconPath p.1 n)), "Scaled " ++ n⟩

def scJobs (k : Kernel) : List Job :=
  DENSITIES.flatMap (fun p => ICON_NAMES.map (scJobOf k p))

/-- `main` of `scale_android_icons.py` (no source-existence gate). -/
def sc_main (k : Kernel) (fs : FS) : FS × List String :=
  runJobs (scJobs k) (fs, [])

/-! ## Generic lemmas about guarded-write runs -/

theorem FS.img_write_self (fs : FS) (p : String) (i : Img) : (fs.write p i).img p = i := by
  simp [FS.write]

theorem FS.img_write_ne (fs : FS) (p q : String) (i : Img) (h : q ≠ p) :
    (fs.write p i).img q = fs.img q := by
  simp [FS.write, h]

theorem FS.exists_write_self (fs : FS) (p : String) (i : Img) :
    (fs.write p i).pathExists p = true := by
  simp [FS.write]

theorem FS.exists_write_ne (fs : FS) (p q : String) (i : Img) (h : q ≠ p) :
    (fs.write p i).pathExists q = fs.pathExists q := by
  simp [FS.write, h]

theorem jobStep_img_ne (st : FS × List String) (j : Job) (q : String) (h : q ≠ j.out) :
    (jobStep st j).1.img q = st.1.img q := by
  unfold jobStep
  split
  · exact FS.img_write_ne _ _ _ _ h
  · rfl

theorem jobStep_exists_ne (st : FS × List String) (j : Job) (q : String) (h : q ≠ j.out) :
    (jobStep st j).1.pathExists q = st.1.pathExists q := by
  unfold jobStep
  split
  · exact FS.exists_write_ne _ _ _ _ h
  · rfl

theorem jobStep_log_mem (st : FS × List String) (j : Job) (m : String) (h : m ∈ st.2) :
    m ∈ (jobStep st j).2 := by
  unfold jobStep
  split
  · exact List.mem_append_left _ h
  · exact List.mem_append_left _ h

theorem runJobs_img_ne : ∀ (jobs : List Job) (st : FS × List String) (q : String),
    (∀ j ∈ jobs, q ≠ j.out) → (runJobs jobs st).1.img q = st.1.img q := by
  intro jobs
  induction jobs with
  | nil => intro st q _; rfl
  | cons a l ih =>
    intro st q h
    have e : runJobs (a :: l) st = runJobs l (jobStep st a) := rfl
    rw [e, ih _ q (fun j hj => h j (List.mem_cons_of_mem a hj)),
      jobStep_img_ne st a q (h a (List.mem_cons_self a l))]

theorem runJobs_exists_ne : ∀ (jobs : List Job) (st : FS × List String) (q : String),
    (∀ j ∈ jobs, q ≠ j.out) → (runJobs jobs st).1.pathExists q = st.1.pathExists q := by
  intro jobs
  induction jobs with
  | nil => intro st q _; rfl
  | cons a l ih =>
    intro st q h
    have e : runJobs (a :: l) st = runJobs l (jobStep st a) := rfl
    rw [e, ih _ q (fun j hj => h j (List.mem_cons_of_mem a hj)),
      jobStep_exists_ne st a q (h a (List.mem_cons_self a l))]

theorem runJobs_log_mem : ∀ (jobs : List Job) (st : FS × List String) (m : String),
    m ∈ st.2 → m ∈ (runJobs jobs st).2 := by
  intro jobs
  induction jobs with
  | nil => intro st m h; exact h
  | cons a l ih =>
    intro st m h
    exact ih (jobStep st a) m (jobStep_log_mem st a m h)

/-- If the guard of job `j` holds, and no earlier job writes over the
guard or the read path of `j`, and no later job writes over the output of
`j`, then after the whole run the output of `j` holds exactly `j.f`
applied to the initially stored read image, and the output path exists. -/
theorem runJobs_write : ∀ (pre : List Job) (j : Job) (post : List Job) (st : FS × List String),
    (∀ j' ∈ pre, j.guard ≠ j'.out ∧ j.src ≠ j'.out) →
    (∀ j' ∈ post, j.out ≠ j'.out) →
    st.1.pathExists j.guard = true →
    (runJobs (pre ++ j :: post) st).1.img j.out = j.f (st.1.img j.src) ∧
    (runJobs (pre ++ j :: post) st).1.pathExists j.out = true := by
  intro pre
  induction pre with
  | nil =>
    intro j post st _ h2 hg
    have e : runJobs ([] ++ j :: post) st = runJobs post (jobStep st j) := rfl
    have ej : jobStep st j = (st.1.write j.out (j.f (st.1.img j.src)), st.2 ++ [j.made]) := by
      unfold jobStep
      rw [hg]
      simp
    rw [e, ej]
    constructor
    · rw [runJobs_img_ne post _ j.out h2]
      exact FS.img_write_self _ _ _
    · rw [runJobs_exists_ne post _ j.out h2]
      exact FS.exists_write_self _ _ _
  | cons a pre ih =>
    intro j post st h1 h2 hg
    have h1a := h1 a (List.mem_cons_self a pre)
    have e : runJobs ((a :: pre) ++ j :: post) st = runJobs (pre ++ j :: post) (jobStep st a) := rfl
    have hg' : (jobStep st a).1.pathExists j.guard = true := by
      rw [jobStep_exists_ne st a j.guard h1a.1]; exact hg
    have hs : (jobStep st a).1.img j.src = st.1.img j.src :=
      jobStep_img_ne st a j.src h1a.2
    have := ih j post (jobStep st a) (fun j' hj' => h1 j' (List.mem_cons_of_mem a hj')) h2 hg'
    rw [hs] at this
    rw [e]
    exact this

/-- If the guard of job `j` fails, and no other job writes over the
output of `j` (nor over the guard, for earlier jobs), then the run leaves
the output of `j` untouched and, when `j` carries a warning, logs it. -/
theorem runJobs_skip : ∀ (pre : List Job) (j : Job) (post : List Job) (st : FS × List String),
    (∀ j' ∈ pre, j.guard ≠ j'.out ∧ j.out ≠ j'.out) →
    (∀ j' ∈ post, j.out ≠ j'.out) →
    st.1.pathExists j.guard = false →
    (runJobs (pre ++ j :: post) st).1.img j.out = st.1.img j.out ∧
    (∀ w, j.warn = some w → w ∈ (runJobs (pre ++ j :: post) st).2) := by
  intro pre
  induction pre with
  | nil =>
    intro j post st _ h2 hg
    have e : runJobs ([] ++ j :: post) st = runJobs post (jobStep st j) := rfl
    have ej : jobStep st j = (st.1, st.2 ++ j.warn.toList) := by
      unfold jobStep
      rw [hg]
      simp
    rw [e, ej]
    constructor
    · rw [runJobs_img_ne post _ j.out h2]
    · intro w hw
      refine runJobs_log_mem post _ w (List.mem_append_right _ ?_)
      rw [hw]
      exact List.mem_singleton.mpr rfl
  | cons a pre ih =>
    intro j post st h1 h2 hg
    have h1a := h1 a (List.mem_cons_self a pre)
    have e : runJobs ((a :: pre) ++ j :: post) st = runJobs (pre ++ j :: post) (jobStep st a) := rfl
    have hg' : (jobStep st a).1.pathExists j.guard = false := by
      rw [jobStep_exists_ne st a j.guard h1a.1]; exact hg
    have := ih j post (jobStep st a) (fun j' hj' => h1 j' (List.mem_cons_of_mem a hj')) h2 hg'
    rw [jobStep_img_ne st a j.out h1a.2] at this
    rw [e]
    exact this

/-- Variant of `runJobs_write` whose side conditions are phrased over
plain string lists, so that they close by `decide` at concrete tables. -/
theorem runJobs_write' (pre : List Job) (j : Job) (post : List Job) (st : FS × List String)
    (op opost : List String) (g s o : String)
    (hpre : pre.map Job.out = op) (hpost : post.map Job.out = opost)
    (hgj : j.guard = g) (hsj : j.src = s) (hoj : j.out = o)
    (h1 : ∀ o' ∈ op, g ≠ o' ∧ s ≠ o') (h2 : ∀ o' ∈ opost, o ≠ o')
    (hg : st.1.pathExists j.guard = true) :
    (runJobs (pre ++ j :: post) st).1.img j.out = j.f (st.1.img j.src) ∧
    (runJobs (pre ++ j :: post) st).1.pathExists j.out = true := by
  refine runJobs_write pre j post st ?_ ?_ hg
  · intro j' hj'
    have := h1 j'.out (hpre ▸ List.mem_map_of_mem Job.out hj')
    rw [hgj, hsj]
    exact this
  · intro j' hj'
    have := h2 j'.out (hpost ▸ List.mem_map_of_mem Job.out hj')
    rw [hoj]
    exact this

/-- Variant of `runJobs_skip` with side conditions over string lists. -/
theorem runJobs_skip' (pre : List Job) (j : Job) (post : List Job) (st : FS × List String)
    (op opost : List String) (g o : String)
    (hpre : pre.map Job.out = op) (hpost : post.map Job.out = opost)
    (hgj : j.guard = g) (hoj : j.out = o)
    (h1 : ∀ o' ∈ op, g ≠ o' ∧ o ≠ o') (h2 : ∀ o' ∈ opost, o ≠ o')
    (hg : st.1.pathExists j.guard = false) :
    (runJobs (pre ++ j :: post) st).1.img j.out = st.1.img j.out ∧
    (∀ w, j.warn = some w → w ∈ (runJobs (pre ++ j :: post) st).2) := by
  refine runJobs_skip pre j post st ?_ ?_ hg
  · intro j' hj'
    have := h1 j'.out (hpre ▸ List.mem_map_of_mem Job.out hj')
    rw [hgj, hoj]
    exact this
  · intro j' hj'
    have := h2 j'.out (hpost ▸ List.mem_map_of_mem Job.out hj')
    rw [hoj]
    exact this

theorem runJobs_img_ne' (jobs : List Job) (st : FS × List String) (q : String)
    (outs : List String) (houts : jobs.map Job.out = outs) (h : ∀ o ∈ outs, q ≠ o) :
    (runJobs jobs st).1.img q = st.1.img q :=
  runJobs_img_ne jobs st q (fun j hj => h j.out (houts ▸ List.mem_map_of_mem Job.out hj))

theorem runJobs_exists_ne' (jobs : List Job) (st : FS × List String) (q : String)
    (outs : List String) (houts : jobs.map Job.out = outs) (h : ∀ o ∈ outs, q ≠ o) :
    (runJobs jobs st).1.pathExists q = st.1.pathExists q :=
  runJobs_exists_ne jobs st q (fun j hj => h j.out (houts ▸ List.mem_map_of_mem Job.out hj))

/-! ## Characterization of the three entry points on the concrete tables -/

/-- The output paths of the circular icon generator, in write order. -/
def ciOuts : List String := ICON_SIZES.flatMap (fun p => [standardPath p.1, roundPath p.1])

/-- The output paths of the splash logo generator, in write order. -/
def spOuts : List String :=
  SPLASH_SIZES.flatMap (fun p => [splashLightPath p.1, splashDarkPath p.1])

/-- The output paths of the icon upscaler, in write order. -/
def scOuts : List String := DENSITIES.flatMap (fun p => ICON_NAMES.map (iconPath p.1))

theorem ci_img_std (k : Kernel) (fs : FS) (d : String) (s : Nat)
    (hmem : (d, s) ∈ ICON_SIZES) (hdir : fs.pathExists (mipmapDir d) = true) :
    (runJobs (ciJobs k) (fs, [])).1.img (standardPath d)
      = create_circular_icon k (fs.img SOURCE_LOGO) s false ∧
    (runJobs (ciJobs k) (fs, [])).1.pathExists (standardPath d) = true := by
  simp [ICON_SIZES] at hmem
  rcases hmem with ⟨rfl, rfl⟩ | ⟨rfl, rfl⟩ | ⟨rfl, rfl⟩ | ⟨rfl, rfl⟩ | ⟨rfl, rfl⟩
  · exact runJobs_write' ((ciJobs k).take 0) (ciJobStd k ("mdpi", 48)) ((ciJobs k).drop 1)
      (fs, []) (ciOuts.take 0) (ciOuts.drop 1) (mipmapDir "mdpi") SOURCE_LOGO (standardPath "mdpi")
      rfl rfl rfl rfl rfl (by decide) (by decide) hdir
  · exact runJobs_write' ((ciJobs k).take 2) (ciJobStd k ("hdpi", 72)) ((ciJobs k).drop 3)
      (fs, []) (ciOuts.take 2) (ciOuts.drop 3) (mipmapDir "hdpi") SOURCE_LOGO (standardPath "hdpi")
      rfl rfl rfl rfl rfl (by decide) (by decide) hdir
  · exact runJobs_write' ((ciJobs k).take 4) (ciJobStd k ("xhdpi", 96)) ((ciJobs k).drop 5)
      (fs, []) (ciOuts.take 4) (ciOuts.drop 5) (mipmapDir "xhdpi") SOURCE_LOGO (standardPath "xhdpi")
      rfl rfl rfl rfl rfl (by decide) (by decide) hdir
  · exact runJobs_write' ((ciJobs k).take 6) (ciJobStd k ("xxhdpi", 144)) ((ciJobs k).drop 7)
      (fs, []) (ciOuts.take 6) (ciOuts.drop 7) (mipmapDir "xxhdpi") SOURCE_LOGO (standardPath "xxhdpi")
      rfl rfl rfl rfl rfl (by decide) (by decide) hdir
  · exact runJobs_write' ((ciJobs k).take 8) (ciJobStd k ("xxxhdpi", 192)) ((ciJobs k).drop 9)
      (fs, []) (ciOuts.take 8) (ciOuts.drop 9) (mipmapDir "xxxhdpi") SOURCE_LOGO (standardPath "xxxhdpi")
      rfl rfl rfl rfl rfl (by decide) (by decide) hdir

theorem ci_img_rnd (k : Kernel) (fs : FS) (d : String) (s : Nat)
    (hmem : (d, s) ∈ ICON_SIZES) (hdir : fs.pathExists (mipmapDir d) = true) :
    (runJobs (ciJobs k) (fs, [])).1.img (roundPath d)
      = create_circular_icon k (fs.img SOURCE_LOGO) s true ∧
    (runJobs (ciJobs k) (fs, [])).1.pathExists (roundPath d) = true := by
  simp [ICON_SIZES] at hmem
  rcases hmem with ⟨rfl, rfl⟩ | ⟨rfl, rfl⟩ | ⟨rfl, rfl⟩ | ⟨rfl, rfl⟩ | ⟨rfl, rfl⟩
  · exact runJobs_write' ((ciJobs k).take 1) (ciJobRnd k ("mdpi", 48)) ((ciJobs k).drop 2)
      (fs, []) (ciOuts.take 1) (ciOuts.drop 2) (mipmapDir "mdpi") SOURCE_LOGO (roundPath "mdpi")
      rfl rfl rfl rfl rfl (by decide) (by decide) hdir
  · exact runJobs_write' ((ciJobs k).take 3) (ciJobRnd k ("hdpi", 72)) ((ciJobs k).drop 4)
      (fs, []) (ciOuts.take 3) (ciOuts.drop 4) (mipmapDir "hdpi") SOURCE_LOGO (roundPath "hdpi")
      rfl rfl rfl rfl rfl (by decide) (by decide) hdir
  · exact runJobs_write' ((ciJobs k).take 5) (ciJobRnd k ("xhdpi", 96)) ((ciJobs k).drop 6)
      (fs, []) (ciOuts.take 5) (ciOuts.drop 6) (mipmapDir "xhdpi") SOURCE_LOGO (roundPath "xhdpi")
      rfl rfl rfl rfl rfl (by decide) (by decide) hdir
  · exact runJobs_write' ((ciJobs k).take 7) (ciJobRnd k ("xxhdpi", 144)) ((ciJobs k).drop 8)
      (fs, []) (ciOuts.take 7) (ciOuts.drop 8) (mipmapDir "xxhdpi") SOURCE_LOGO (roundPath "xxhdpi")
      rfl rfl rfl rfl rfl (by decide) (by decide) hdir
  · exact runJobs_write' ((ciJobs k).take 9) (ciJobRnd k ("xxxhdpi", 192)) ((ciJobs k).drop 10)
      (fs, []) (ciOuts.take 9) (ciOuts.drop 10) (mipmapDir "xxxhdpi") SOURCE_LOGO (roundPath "xxxhdpi")
      rfl rfl rfl rfl rfl (by decide) (by decide) hdir

theorem ci_skip (k : Kernel) (fs : FS) (d : String) (s : Nat)
    (hmem : (d, s) ∈ ICON_SIZES) (hdir : fs.pathExists (mipmapDir d) = false) :
    (runJobs (ciJobs k) (fs, [])).1.img (standardPath d) = fs.img (standardPath d) ∧
    (runJobs (ciJobs k) (fs, [])).1.img (roundPath d) = fs.img (roundPath d) ∧
    ciWarnMsg d ∈ (runJobs (ciJobs k) (fs, [])).2 := by
  simp [ICON_SIZES] at hmem
  rcases hmem with ⟨rfl, rfl⟩ | ⟨rfl, rfl⟩ | ⟨rfl, rfl⟩ | ⟨rfl, rfl⟩ | ⟨rfl, rfl⟩
  · have h1 := runJobs_skip' ((ciJobs k).take 0) (ciJobStd k ("mdpi", 48))
      ((ciJobs k).drop 1) (fs, []) (ciOuts.take 0) (ciOuts.drop 1)
      (mipmapDir "mdpi") (standardPath "mdpi") rfl rfl rfl rfl (by decide) (by decide) hdir
    have h2 := runJobs_skip' ((ciJobs k).take 1) (ciJobRnd k ("mdpi", 48))
      ((ciJobs k).drop 2) (fs, []) (ciOuts.take 1) (ciOuts.drop 2)
      (mipmapDir "mdpi") (roundPath "mdpi") rfl rfl rfl rfl (by decide) (by decide) hdir
    exact ⟨h1.1, h2.1, h1.2 (ciWarnMsg "mdpi") rfl⟩
  · have h1 := runJobs_skip' ((ciJobs k).take 2) (ciJobStd k ("hdpi", 72))
      ((ciJobs k).drop 3) (fs, []) (ciOuts.take 2) (ciOuts.drop 3)
      (mipmapDir "hdpi") (standardPath "hdpi") rfl rfl rfl rfl (by decide) (by decide) hdir
    have h2 := runJobs_skip' ((ciJobs k).take 3) (ciJobRnd k ("hdpi", 72))
      ((ciJobs k).drop 4) (fs, []) (ciOuts.take 3) (ciOuts.drop 4)
      (mipmapDir "hdpi") (roundPath "hdpi") rfl rfl rfl rfl (by decide) (by decide) hdir
    exact ⟨h1.1, h2.1, h1.2 (ciWarnMsg "hdpi") rfl⟩
  · have h1 := runJobs_skip' ((ciJobs k).take 4) (ciJobStd k ("xhdpi", 96))
      ((ciJobs k).drop 5) (fs, []) (ciOuts.take 4) (ciOuts.drop 5)
      (mipmapDir "xhdpi") (standardPath "xhdpi") rfl rfl rfl rfl (by decide) (by decide) hdir
    have h2 := runJobs_skip' ((ciJobs k).take 5) (ciJobRnd k ("xhdpi", 96))
      ((ciJobs k).drop 6) (fs, []) (ciOuts.take 5) (ciOuts.drop 6)
      (mipmapDir "xhdpi") (roundPath "xhdpi") rfl rfl rfl rfl (by decide) (by decide) hdir
    exact ⟨h1.1, h2.1, h1.2 (ciWarnMsg "xhdpi") rfl⟩
  · have h1 := runJobs_skip' ((ciJobs k).take 6) (ciJobStd k ("xxhdpi", 144))
      ((ciJobs k).drop 7) (fs, []) (ciOuts.take 6) (ciOuts.drop 7)
      (mipmapDir "xxhdpi") (standardPath "xxhdpi") rfl rfl rfl rfl (by decide) (by decide) hdir
    have h2 := runJobs_skip' ((ciJobs k).take 7) (ciJobRnd k ("xxhdpi", 144))
      ((ciJobs k).drop 8) (fs, []) (ciOuts.take 7) (ciOuts.drop 8)
      (mipmapDir "xxhdpi") (roundPath "xxhdpi") rfl rfl rfl rfl (by decide) (by decide) hdir
    exact ⟨h1.1, h2.1, h1.2 (ciWarnMsg "xxhdpi") rfl⟩
  · have h1 := runJobs_skip' ((ciJobs k).take 8) (ciJobStd k ("xxxhdpi", 192))
      ((ciJobs k).drop 9) (fs, []) (ciOuts.take 8) (ciOuts.drop 9)
      (mipmapDir "xxxhdpi") (standardPath "xxxhdpi") rfl rfl rfl rfl (by decide) (by decide) hdir
    have h2 := runJobs_skip' ((ciJobs k).take 9) (ciJobRnd k ("xxxhdpi", 192))
      ((ciJobs k).drop 10) (fs, []) (ciOuts.take 9) (ciOuts.drop 10)
      (mipmapDir "xxxhdpi") (roundPath "xxxhdpi") rfl rfl rfl rfl (by decide) (by decide) hdir
    exact ⟨h1.1, h2.1, h1.2 (ciWarnMsg "xxxhdpi") rfl⟩

theorem sp_img_light (k : Kernel) (fs : FS) (d : String) (s : Nat)
    (hmem : (d, s) ∈ SPLASH_SIZES) (hdir : fs.pathExists (drawableDir d) = true) :
    (runJobs (spJobs k) (fs, [])).1.img (splashLightPath d)
      = generate_splash_logo k (fs.img SPLASH_SOURCE) s ∧
    (runJobs (spJobs k) (fs, [])).1.pathExists (splashLightPath d) = true := by
  simp [SPLASH_SIZES] at hmem
  rcases hmem with ⟨rfl, rfl⟩ | ⟨rfl, rfl⟩ | ⟨rfl, rfl⟩ | ⟨rfl, rfl⟩ | ⟨rfl, rfl⟩
  · exact runJobs_write' ((spJobs k).take 0) (spJobLight k ("mdpi", 300))
      ((spJobs k).drop 1) (fs, []) (spOuts.take 0) (spOuts.drop 1)
      (drawableDir "mdpi") SPLASH_SOURCE (splashLightPath "mdpi")
      rfl rfl rfl rfl rfl (by decide) (by decide) hdir
  · exact runJobs_write' ((spJobs k).take 2) (spJobLight k ("hdpi", 450))
      ((spJobs k).drop 3) (fs, []) (spOuts.take 2) (spOuts.drop 3)
      (drawableDir "hdpi") SPLASH_SOURCE (splashLightPath "hdpi")
      rfl rfl rfl rfl rfl (by decide) (by decide) hdir
  · exact runJobs_write' ((spJobs k).take 4) (spJobLight k ("xhdpi", 600))
      ((spJobs k).drop 5) (fs, []) (spOuts.take 4) (spOuts.drop 5)
      (drawableDir "xhdpi") SPLASH_SOURCE (splashLightPath "xhdpi")
      rfl rfl rfl rfl rfl (by decide) (by decide) hdir
  · exact runJobs_write' ((spJobs k).take 6) (spJobLight k ("xxhdpi", 900))
      ((spJobs k).drop 7) (fs, []) (spOuts.take 6) (spOuts.drop 7)
      (drawableDir "xxhdpi") SPLASH_SOURCE (splashLightPath "xxhdpi")
      rfl rfl rfl rfl rfl (by decide) (by decide) hdir
  · exact runJobs_write' ((spJobs k).take 8) (spJobLight k ("xxxhdpi", 1200))
      ((spJobs k).drop 9) (fs, []) (spOuts.take 8) (spOuts.drop 9)
      (drawableDir "xxxhdpi") SPLASH_SOURCE (splashLightPath "xxxhdpi")
      rfl rfl rfl rfl rfl (by decide) (by decide) hdir

theorem sp_img_dark (k : Kernel) (fs : FS) (d : String) (s : Nat)
    (hmem : (d, s) ∈ SPLASH_SIZES) (hdir : fs.pathExists (drawableNightDir d) = true) :
    (runJobs (spJobs k) (fs, [])).1.img (splashDarkPath d)
      = generate_splash_logo k (fs.img SPLASH_SOURCE) s ∧
    (runJobs (spJobs k) (fs, [])).1.pathExists (splashDarkPath d) = true := by
  simp [SPLASH_SIZES] at hmem
  rcases hmem with ⟨rfl, rfl⟩ | ⟨rfl, rfl⟩ | ⟨rfl, rfl⟩ | ⟨rfl, rfl⟩ | ⟨rfl, rfl⟩
  · exact runJobs_write' ((spJobs k).take 1) (spJobDark k ("mdpi", 300))
      ((spJobs k).drop 2) (fs, []) (spOuts.take 1) (spOuts.drop 2)
      (drawableNightDir "mdpi") SPLASH_SOURCE (splashDarkPath "mdpi")
      rfl rfl rfl rfl rfl (by decide) (by decide) hdir
  · exact runJobs_write' ((spJobs k).take 3) (spJobDark k ("hdpi", 450))
      ((spJobs k).drop 4) (fs, []) (spOuts.take 3) (spOuts.drop 4)
      (drawableNightDir "hdpi") SPLASH_SOURCE (splashDarkPath "hdpi")
      rfl rfl rfl rfl rfl (by decide) (by decide) hdir
  · exact runJobs_write' ((spJobs k).take 5) (spJobDark k ("xhdpi", 600))
      ((spJobs k).drop 6) (fs, []) (spOuts.take 5) (spOuts.drop 6)
      (drawableNightDir "xhdpi") SPLASH_SOURCE (splashDarkPath "xhdpi")
      rfl rfl rfl rfl rfl (by decide) (by decide) hdir
  · exact runJobs_write' ((spJobs k).take 7) (spJobDark k ("xxhdpi", 900))
      ((spJobs k).drop 8) (fs, []) (spOuts.take 7) (spOuts.drop 8)
      (drawableNightDir "xxhdpi") SPLASH_SOURCE (splashDarkPath "xxhdpi")
      rfl rfl rfl rfl rfl (by decide) (by decide) hdir
  · exact runJobs_write' ((spJobs k).take 9) (spJobDark k ("xxxhdpi", 1200))
      ((spJobs k).drop 10) (fs, []) (spOuts.take 9) (spOuts.drop 10)
      (drawableNightDir "xxxhdpi") SPLASH_SOURCE (splashDarkPath "xxxhdpi")
      rfl rfl rfl rfl rfl (by decide) (by decide) hdir

theorem sp_skip_light (k : Kernel) (fs : FS) (d : String) (s : Nat)
    (hmem : (d, s) ∈ SPLASH_SIZES) (hdir : fs.pathExists (drawableDir d) = false) :
    (runJobs (spJobs k) (fs, [])).1.img (splashLightPath d) = fs.img (splashLightPath d) ∧
    spWarnMsg (drawableDir d) ∈ (runJobs (spJobs k) (fs, [])).2 := by
  simp [SPLASH_SIZES] at hmem
  rcases hmem with ⟨rfl, rfl⟩ | ⟨rfl, rfl⟩ | ⟨rfl, rfl⟩ | ⟨rfl, rfl⟩ | ⟨rfl, rfl⟩
  · have h1 := runJobs_skip' ((spJobs k).take 0) (spJobLight k ("mdpi", 300))
      ((spJobs k).drop 1) (fs, []) (spOuts.take 0) (spOuts.drop 1)
      (drawableDir "mdpi") (splashLightPath "mdpi") rfl rfl rfl rfl (by decide) (by decide) hdir
    exact ⟨h1.1, h1.2 (spWarnMsg (drawableDir "mdpi")) rfl⟩
  · have h1 := runJobs_skip' ((spJobs k).take 2) (spJobLight k ("hdpi", 450))
      ((spJobs k).drop 3) (fs, []) (spOuts.take 2) (spOuts.drop 3)
      (drawableDir "hdpi") (splashLightPath "hdpi") rfl rfl rfl rfl (by decide) (by decide) hdir
    exact ⟨h1.1, h1.2 (spWarnMsg (drawableDir "hdpi")) rfl⟩
  · have h1 := runJobs_skip' ((spJobs k).take 4) (spJobLight k ("xhdpi", 600))
      ((spJobs k).drop 5) (fs, []) (spOuts.take 4) (spOuts.drop 5)
      (drawableDir "xhdpi") (splashLightPath "xhdpi") rfl rfl rfl rfl (by decide) (by decide) hdir
    exact ⟨h1.1, h1.2 (spWarnMsg (drawableDir "xhdpi")) rfl⟩
  · have h1 := runJobs_skip' ((spJobs k).take 6) (spJobLight k ("xxhdpi", 900))
      ((spJobs k).drop 7) (fs, []) (spOuts.take 6) (spOuts.drop 7)
      (drawableDir "xxhdpi") (splashLightPath "xxhdpi") rfl rfl rfl rfl (by decide) (by decide) hdir
    exact ⟨h1.1, h1.2 (spWarnMsg (drawableDir "xxhdpi")) rfl⟩
  · have h1 := runJobs_skip' ((spJobs k).take 8) (spJobLight k ("xxxhdpi", 1200))
      ((spJobs k).drop 9) (fs, []) (spOuts.take 8) (spOuts.drop 9)
      (drawableDir "xxxhdpi") (splashLightPath "xxxhdpi") rfl rfl rfl rfl (by decide) (by decide) hdir
    exact ⟨h1.1, h1.2 (spWarnMsg (drawableDir "xxxhdpi")) rfl⟩

theorem sp_skip_dark (k : Kernel) (fs : FS) (d : String) (s : Nat)
    (hmem : (d, s) ∈ SPLASH_SIZES) (hdir : fs.pathExists (drawableNightDir d) = false) :
    (runJobs (spJobs k) (fs, [])).1.img (splashDarkPath d) = fs.img (splashDarkPath d) ∧
    spWarnMsg (drawableNightDir d) ∈ (runJobs (spJobs k) (fs, [])).2 := by
  simp [SPLASH_SIZES] at hmem
  rcases hmem with ⟨rfl, rfl⟩ | ⟨rfl, rfl⟩ | ⟨rfl, rfl⟩ | ⟨rfl, rfl⟩ | ⟨rfl, rfl⟩
  · have h1 := runJobs_skip' ((spJobs k).take 1) (spJobDark k ("mdpi", 300))
      ((spJobs k).drop 2) (fs, []) (spOuts.take 1) (spOuts.drop 2)
      (drawableNightDir "mdpi") (splashDarkPath "mdpi") rfl rfl rfl rfl (by decide) (by decide) hdir
    exact ⟨h1.1, h1.2 (spWarnMsg (drawableNightDir "mdpi")) rfl⟩
  · have h1 := runJobs_skip' ((spJobs k).take 3) (spJobDark k ("hdpi", 450))
      ((spJobs k).drop 4) (fs, []) (spOuts.take 3) (spOuts.drop 4)
      (drawableNightDir "hdpi") (splashDarkPath "hdpi") rfl rfl rfl rfl (by decide) (by decide) hdir
    exact ⟨h1.1, h1.2 (spWarnMsg (drawableNightDir "hdpi")) rfl⟩
  · have h1 := runJobs_skip' ((spJobs k).take 5) (spJobDark k ("xhdpi", 600))
      ((spJobs k).drop 6) (fs, []) (spOuts.take 5) (spOuts.drop 6)
      (drawableNightDir "xhdpi") (splashDarkPath "xhdpi") rfl rfl rfl rfl (by decide) (by decide) hdir
    exact ⟨h1.1, h1.2 (spWarnMsg (drawableNightDir "xhdpi")) rfl⟩
  · have h1 := runJobs_skip' ((spJobs k).take 7) (spJobDark k ("xxhdpi", 900))
      ((spJobs k).drop 8) (fs, []) (spOuts.take 7) (spOuts.drop 8)
      (drawableNightDir "xxhdpi") (splashDarkPath "xxhdpi") rfl rfl rfl rfl (by decide) (by decide) hdir
    exact ⟨h1.1, h1.2 (spWarnMsg (drawableNightDir "xxhdpi")) rfl⟩
  · have h1 := runJobs_skip' ((spJobs k).take 9) (spJobDark k ("xxxhdpi", 1200))
      ((spJobs k).drop 10) (fs, []) (spOuts.take 9) (spOuts.drop 10)
      (drawableNightDir "xxxhdpi") (splashDarkPath "xxxhdpi") rfl rfl rfl rfl (by decide) (by decide) hdir
    exact ⟨h1.1, h1.2 (spWarnMsg (drawableNightDir "xxxhdpi")) rfl⟩

theorem sc_img_l (k : Kernel) (fs : FS) (d : String) (s : Nat)
    (hmem : (d, s) ∈ DENSITIES) (hf : fs.pathExists (iconPath d "ic_launcher.png") = true) :
    (runJobs (scJobs k) (fs, [])).1.img (iconPath d "ic_launcher.png")
      = scale_icon k (fs.img (iconPath d "ic_launcher.png")) s ∧
    (runJobs (scJobs k) (fs, [])).1.pathExists (iconPath d "ic_launcher.png") = true := by
  simp [DENSITIES] at hmem
  rcases hmem with ⟨rfl, rfl⟩ | ⟨rfl, rfl⟩ | ⟨rfl, rfl⟩ | ⟨rfl, rfl⟩ | ⟨rfl, rfl⟩
  · exact runJobs_write' ((scJobs k).take 0) (scJobOf k ("mdpi", 48) "ic_launcher.png")
      ((scJobs k).drop 1) (fs, []) (scOuts.take 0) (scOuts.drop 1)
      (iconPath "mdpi" "ic_launcher.png") (iconPath "mdpi" "ic_launcher.png") (iconPath "mdpi" "ic_launcher.png")
      rfl rfl rfl rfl rfl (by decide) (by decide) hf
  · exact runJobs_write' ((scJobs k).take 2) (scJobOf k ("hdpi", 72) "ic_launcher.png")
      ((scJobs k).drop 3) (fs, []) (scOuts.take 2) (scOuts.drop 3)
      (iconPath "hdpi" "ic_launcher.png") (iconPath "hdpi" "ic_launcher.png") (iconPath "hdpi" "ic_launcher.png")
      rfl rfl rfl rfl rfl (by decide) (by decide) hf
  · exact runJobs_write' ((scJobs k).take 4) (scJobOf k ("xhdpi", 96) "ic_launcher.png")
      ((scJobs k).drop 5) (fs, []) (scOuts.take 4) (scOuts.drop 5)
      (iconPath "xhdpi" "ic_launcher.png") (iconPath "xhdpi" "ic_launcher.png") (iconPath "xhdpi" "ic_launcher.png")
      rfl rfl rfl rfl rfl (by decide) (by decide) hf
  · exact runJobs_write' ((scJobs k).take 6) (scJobOf k ("xxhdpi", 144) "ic_launcher.png")
      ((scJobs k).drop 7) (fs, []) (scOuts.take 6) (scOuts.drop 7)
      (iconPath "xxhdpi" "ic_launcher.png") (iconPath "xxhdpi" "ic_launcher.png") (iconPath "xxhdpi" "ic_launcher.png")
      rfl rfl rfl rfl rfl (by decide) (by decide) hf
  · exact runJobs_write' ((scJobs k).take 8) (scJobOf k ("xxxhdpi", 192) "ic_launcher.png")
      ((scJobs k).drop 9) (fs, []) (scOuts.take 8) (scOuts.drop 9)
      (iconPath "xxxhdpi" "ic_launcher.png") (iconPath "xxxhdpi" "ic_launcher.png") (iconPath "xxxhdpi" "ic_launcher.png")
      rfl rfl rfl rfl rfl (by decide) (by decide) hf

theorem sc_skip_l (k : Kernel) (fs : FS) (d : String) (s : Nat)
    (hmem : (d, s) ∈ DENSITIES) (hf : fs.pathExists (iconPath d "ic_launcher.png") = false) :
    (runJobs (scJobs k) (fs, [])).1.img (iconPath d "ic_launcher.png") = fs.img (iconPath d "ic_launcher.png") ∧
    scWarnMsg (iconPath d "ic_launcher.png") ∈ (runJobs (scJobs k) (fs, [])).2 := by
  simp [DENSITIES] at hmem
  rcases hmem with ⟨rfl, rfl⟩ | ⟨rfl, rfl⟩ | ⟨rfl, rfl⟩ | ⟨rfl, rfl⟩ | ⟨rfl, rfl⟩
  · have h1 := runJobs_skip' ((scJobs k).take 0) (scJobOf k ("mdpi", 48) "ic_launcher.png")
      ((scJobs k).drop 1) (fs, []) (scOuts.take 0) (scOuts.drop 1)
      (iconPath "mdpi" "ic_launcher.png") (iconPath "mdpi" "ic_launcher.png") rfl rfl rfl rfl (by decide) (by decide) hf
    exact ⟨h1.1, h1.2 (scWarnMsg (iconPath "mdpi" "ic_launcher.png")) rfl⟩
  · have h1 := runJobs_skip' ((scJobs k).take 2) (scJobOf k ("hdpi", 72) "ic_launcher.png")
      ((scJobs k).drop 3) (fs, []) (scOuts.take 2) (scOuts.drop 3)
      (iconPath "hdpi" "ic_launcher.png") (iconPath "hdpi" "ic_launcher.png") rfl rfl rfl rfl (by decide) (by decide) hf
    exact ⟨h1.1, h1.2 (scWarnMsg (iconPath "hdpi" "ic_launcher.png")) rfl⟩
  · have h1 := runJobs_skip' ((scJobs k).take 4) (scJobOf k ("xhdpi", 96) "ic_launcher.png")
      ((scJobs k).drop 5) (fs, []) (scOuts.take 4) (scOuts.drop 5)
      (iconPath "xhdpi" "ic_launcher.png") (iconPath "xhdpi" "ic_launcher.png") rfl rfl rfl rfl (by decide) (by decide) hf
    exact ⟨h1.1, h1.2 (scWarnMsg (iconPath "xhdpi" "ic_launcher.png")) rfl⟩
  · have h1 := runJobs_skip' ((scJobs k).take 6) (scJobOf k ("xxhdpi", 144) "ic_launcher.png")
      ((scJobs k).drop 7) (fs, []) (scOuts.take 6) (scOuts.drop 7)
      (iconPath "xxhdpi" "ic_launcher.png") (iconPath "xxhdpi" "ic_launcher.png") rfl rfl rfl rfl (by decide) (by decide) hf
    exact ⟨h1.1, h1.2 (scWarnMsg (iconPath "xxhdpi" "ic_launcher.png")) rfl⟩
  · have h1 := runJobs_skip' ((scJobs k).take 8) (scJobOf k ("xxxhdpi", 192) "ic_launcher.png")
      ((scJobs k).drop 9) (fs, []) (scOuts.take 8) (scOuts.drop 9)
      (iconPath "xxxhdpi" "ic_launcher.png") (iconPath "xxxhdpi" "ic_launcher.png") rfl rfl rfl rfl (by decide) (by decide) hf
    exact ⟨h1.1, h1.2 (scWarnMsg (iconPath "xxxhdpi" "ic_launcher.png")) rfl⟩

theorem sc_img_r (k : Kernel) (fs : FS) (d : String) (s : Nat)
    (hmem : (d, s) ∈ DENSITIES) (hf : fs.pathExists (iconPath d "ic_launcher_round.png") = true) :
    (runJobs (scJobs k) (fs, [])).1.img (iconPath d "ic_launcher_round.png")
      = scale_icon k (fs.img (iconPath d "ic_launcher_round.png")) s ∧
    (runJobs (scJobs k) (fs, [])).1.pathExists (iconPath d "ic_launcher_round.png") = true := by
  simp [DENSITIES] at hmem
  rcases hmem with ⟨rfl, rfl⟩ | ⟨rfl, rfl⟩ | ⟨rfl, rfl⟩ | ⟨rfl, rfl⟩ | ⟨rfl, rfl⟩
  · exact runJobs_write' ((scJobs k).take 1) (scJobOf k ("mdpi", 48) "ic_launcher_round.png")
      ((scJobs k).drop 2) (fs, []) (scOuts.take 1) (scOuts.drop 2)
      (iconPath "mdpi" "ic_launcher_round.png") (iconPath "mdpi" "ic_launcher_round.png") (iconPath "mdpi" "ic_launcher_round.png")
      rfl rfl rfl rfl rfl (by decide) (by decide) hf
  · exact runJobs_write' ((scJobs k).take 3) (scJobOf k ("hdpi", 72) "ic_launcher_round.png")
      ((scJobs k).drop 4) (fs, []) (scOuts.take 3) (scOuts.drop 4)
      (iconPath "hdpi" "ic_launcher_round.png") (iconPath "hdpi" "ic_launcher_round.png") (iconPath "hdpi" "ic_launcher_round.png")
      rfl rfl rfl rfl rfl (by decide) (by decide) hf
  · exact runJobs_write' ((scJobs k).take 5) (scJobOf k ("xhdpi", 96) "ic_launcher_round.png")
      ((scJobs k).drop 6) (fs, []) (scOuts.take 5) (scOuts.drop 6)
      (iconPath "xhdpi" "ic_launcher_round.png") (iconPath "xhdpi" "ic_launcher_round.png") (iconPath "xhdpi" "ic_launcher_round.png")
      rfl rfl rfl rfl rfl (by decide) (by decide) hf
  · exact runJobs_write' ((scJobs k).take 7) (scJobOf k ("xxhdpi", 144) "ic_launcher_round.png")
      ((scJobs k).drop 8) (fs, []) (scOuts.take 7) (scOuts.drop 8)
      (iconPath "xxhdpi" "ic_launcher_round.png") (iconPath "xxhdpi" "ic_launcher_round.png") (iconPath "xxhdpi" "ic_launcher_round.png")
      rfl rfl rfl rfl rfl (by decide) (by decide) hf
  · exact runJobs_write' ((scJobs k).take 9) (scJobOf k ("xxxhdpi", 192) "ic_launcher_round.png")
      ((scJobs k).drop 10) (fs, []) (scOuts.take 9) (scOuts.drop 10)
      (iconPath "xxxhdpi" "ic_launcher_round.png") (iconPath "xxxhdpi" "ic_launcher_round.png") (iconPath "xxxhdpi" "ic_launcher_round.png")
      rfl rfl rfl rfl rfl (by decide) (by decide) hf

theorem sc_skip_r (k : Kernel) (fs : FS) (d : String) (s : Nat)
    (hmem : (d, s) ∈ DENSITIES) (hf : fs.pathExists (iconPath d "ic_launcher_round.png") = false) :
    (runJobs (scJobs k) (fs, [])).1.img (iconPath d "ic_launcher_round.png") = fs.img (iconPath d "ic_launcher_round.png") ∧
    scWarnMsg (iconPath d "ic_launcher_round.png") ∈ (runJobs (scJobs k) (fs, [])).2 := by
  simp [DENSITIES] at hmem
  rcases hmem with ⟨rfl, rfl⟩ | ⟨rfl, rfl⟩ | ⟨rfl, rfl⟩ | ⟨rfl, rfl⟩ | ⟨rfl, rfl⟩
  · have h1 := runJobs_skip' ((scJobs k).take 1) (scJobOf k ("mdpi", 48) "ic_launcher_round.png")
      ((scJobs k).drop 2) (fs, []) (scOuts.take 1) (scOuts.drop 2)
      (iconPath "mdpi" "ic_launcher_round.png") (iconPath "mdpi" "ic_launcher_round.png") rfl rfl rfl rfl (by decide) (by decide) hf
    exact ⟨h1.1, h1.2 (scWarnMsg (iconPath "mdpi" "ic_launcher_round.png")) rfl⟩
  · have h1 := runJobs_skip' ((scJobs k).take 3) (scJobOf k ("hdpi", 72) "ic_launcher_round.png")
      ((scJobs k).drop 4) (fs, []) (scOuts.take 3) (scOuts.drop 4)
      (iconPath "hdpi" "ic_launcher_round.png") (iconPath "hdpi" "ic_launcher_round.png") rfl rfl rfl rfl (by decide) (by decide) hf
    exact ⟨h1.1, h1.2 (scWarnMsg (iconPath "hdpi" "ic_launcher_round.png")) rfl⟩
  · have h1 := runJobs_skip' ((scJobs k).take 5) (scJobOf k ("xhdpi", 96) "ic_launcher_round.png")
      ((scJobs k).drop 6) (fs, []) (scOuts.take 5) (scOuts.drop 6)
      (iconPath "xhdpi" "ic_launcher_round.png") (iconPath "xhdpi" "ic_launcher_round.png") rfl rfl rfl rfl (by decide) (by decide) hf
    exact ⟨h1.1, h1.2 (scWarnMsg (iconPath "xhdpi" "ic_launcher_round.png")) rfl⟩
  · have h1 := runJobs_skip' ((scJobs k).take 7) (scJobOf k ("xxhdpi", 144) "ic_launcher_round.png")
      ((scJobs k).drop 8) (fs, []) (scOuts.take 7) (scOuts.drop 8)
      (iconPath "xxhdpi" "ic_launcher_round.png") (iconPath "xxhdpi" "ic_launcher_round.png") rfl rfl rfl rfl (by decide) (by decide) hf
    exact ⟨h1.1, h1.2 (scWarnMsg (iconPath "xxhdpi" "ic_launcher_round.png")) rfl⟩
  · have h1 := runJobs_skip' ((scJobs k).take 9) (scJobOf k ("xxxhdpi", 192) "ic_launcher_round.png")
      ((scJobs k).drop 10) (fs, []) (scOuts.take 9) (scOuts.drop 10)
      (iconPath "xxxhdpi" "ic_launcher_round.png") (iconPath "xxxhdpi" "ic_launcher_round.png") rfl rfl rfl rfl (by decide) (by decide) hf
    exact ⟨h1.1, h1.2 (scWarnMsg (iconPath "xxxhdpi" "ic_launcher_round.png")) rfl⟩

/-- A run of the circular icon generator never touches the source logo
nor the density directories it checks. -/
theorem ci_preserve (k : Kernel) (fs : FS) :
    (runJobs (ciJobs k) (fs, [])).1.img SOURCE_LOGO = fs.img SOURCE_LOGO ∧
    (runJobs (ciJobs k) (fs, [])).1.pathExists SOURCE_LOGO = fs.pathExists SOURCE_LOGO ∧
    ∀ d s, (d, s) ∈ ICON_SIZES →
      (runJobs (ciJobs k) (fs, [])).1.pathExists (mipmapDir d) = fs.pathExists (mipmapDir d) := by
  refine ⟨runJobs_img_ne' _ _ _ ciOuts rfl (by decide),
    runJobs_exists_ne' _ _ _ ciOuts rfl (by decide), ?_⟩
  intro d s hmem
  simp [ICON_SIZES] at hmem
  rcases hmem with ⟨rfl, rfl⟩ | ⟨rfl, rfl⟩ | ⟨rfl, rfl⟩ | ⟨rfl, rfl⟩ | ⟨rfl, rfl⟩ <;>
    exact runJobs_exists_ne' _ _ _ ciOuts rfl (by decide)

/-- A run of the splash generator never touches its source logo nor the
drawable directories it checks. -/
theorem sp_preserve (k : Kernel) (fs : FS) :
    (runJobs (spJobs k) (fs, [])).1.img SPLASH_SOURCE = fs.img SPLASH_SOURCE ∧
    (runJobs (spJobs k) (fs, [])).1.pathExists SPLASH_SOURCE = fs.pathExists SPLASH_SOURCE ∧
    ∀ d s, (d, s) ∈ SPLASH_SIZES →
      (runJobs (spJobs k) (fs, [])).1.pathExists (drawableDir d) = fs.pathExists (drawableDir d) ∧
      (runJobs (spJobs k) (fs, [])).1.pathExists (drawableNightDir d)
        = fs.pathExists (drawableNightDir d) := by
  refine ⟨runJobs_img_ne' _ _ _ spOuts rfl (by decide),
    runJobs_exists_ne' _ _ _ spOuts rfl (by decide), ?_⟩
  intro d s hmem
  simp [SPLASH_SIZES] at hmem
  rcases hmem with ⟨rfl, rfl⟩ | ⟨rfl, rfl⟩ | ⟨rfl, rfl⟩ | ⟨rfl, rfl⟩ | ⟨rfl, rfl⟩ <;>
    exact ⟨runJobs_exists_ne' _ _ _ spOuts rfl (by decide),
      runJobs_exists_ne' _ _ _ spOuts rfl (by decide)⟩

/-! ## Pixel-level lemmas -/

theorem blendc_mask_full (d s : Nat) : blendc d s 255 = s := by
  simp [blendc]

theorem blendc_mask_none (d s : Nat) : blendc d s 0 = d := by
  simp [blendc]

theorem blendPix_mask_full (d s : RGBA) : blendPix d s 255 = s := by
  cases s
  simp [blendPix, blendc_mask_full]

theorem blendPix_mask_none (d s : RGBA) : blendPix d s 0 = d := by
  cases d
  simp [blendPix, blendc_mask_none]

/-- Pixel formula of a paste at a nonnegative offset `p`, in natural
coordinates. -/
theorem pasteMask_pix_nat (dest src : Img) (p : Nat) (m : Nat → Nat → Nat) (x y : Nat) :
    (pasteMask dest src (p : Int) (p : Int) m).pix x y =
      if p ≤ x ∧ x < p + src.width ∧ p ≤ y ∧ y < p + src.height then
        blendPix (dest.pix x y) (src.pix (x - p) (y - p)) (m (x - p) (y - p))
      else dest.pix x y := by
  dsimp only [pasteMask]
  have hx : ((x : Int) - (p : Int)).toNat = x - p := by omega
  have hy : ((y : Int) - (p : Int)).toNat = y - p := by omega
  have hc : (0 ≤ (x : Int) - (p : Int) ∧ (x : Int) - (p : Int) < (src.width : Int) ∧
      0 ≤ (y : Int) - (p : Int) ∧ (y : Int) - (p : Int) < (src.height : Int))
      ↔ (p ≤ x ∧ x < p + src.width ∧ p ≤ y ∧ y < p + src.height) := by omega
  rw [hx, hy]
  exact if_congr hc rfl rfl

/-- Pixel formula of a paste at offset zero. -/
theorem pasteMask_pix_zero (dest src : Img) (m : Nat → Nat → Nat) (x y : Nat) :
    (pasteMask dest src 0 0 m).pix x y =
      if x < src.width ∧ y < src.height then
        blendPix (dest.pix x y) (src.pix x y) (m x y)
      else dest.pix x y := by
  dsimp only [pasteMask]
  have hx : ((x : Int) - 0).toNat = x := by omega
  have hy : ((y : Int) - 0).toNat = y := by omega
  have hc : (0 ≤ (x : Int) - 0 ∧ (x : Int) - 0 < (src.width : Int) ∧
      0 ≤ (y : Int) - 0 ∧ (y : Int) - 0 < (src.height : Int))
      ↔ (x < src.width ∧ y < src.height) := by omega
  rw [hx, hy]
  exact if_congr hc rfl rfl

/-- Pixel formula of a paste at a nonpositive offset `-q`: every source
coordinate is shifted up by `q`, and the first `q` source rows and
columns are clipped away. -/
theorem pasteMask_pix_neg (dest src : Img) (q : Nat) (m : Nat → Nat → Nat) (x y : Nat) :
    (pasteMask dest src (-(q : Int)) (-(q : Int)) m).pix x y =
      if x + q < src.width ∧ y + q < src.height then
        blendPix (dest.pix x y) (src.pix (x + q) (y + q)) (m (x + q) (y + q))
      else dest.pix x y := by
  dsimp only [pasteMask]
  have hx : ((x : Int) - -(q : Int)).toNat = x + q := by omega
  have hy : ((y : Int) - -(q : Int)).toNat = y + q := by omega
  have hc : (0 ≤ (x : Int) - -(q : Int) ∧ (x : Int) - -(q : Int) < (src.width : Int) ∧
      0 ≤ (y : Int) - -(q : Int) ∧ (y : Int) - -(q : Int) < (src.height : Int))
      ↔ (x + q < src.width ∧ y + q < src.height) := by omega
  rw [hx, hy]
  exact if_congr hc rfl rfl

/-- The inscribed circle of the square `size` by `size` canvas, in pixel
centres: pixel `(x, y)` (centre `(x + 1/2, y + 1/2)`) is outside the
circle of centre `(size/2, size/2)` and radius `size/2` when
`(2x+1-size)^2 + (2y+1-size)^2 > size^2` (everything scaled by 4). -/
def outsideInscribedCircle (x y size : Nat) : Prop :=
  ((size : Int)) ^ 2 < (2 * (x : Int) + 1 - (size : Int)) ^ 2 + (2 * (y : Int) + 1 - (size : Int)) ^ 2

instance (x y size : Nat) : Decidable (outsideInscribedCircle x y size) := by
  unfold outsideInscribedCircle
  infer_instance

/-- A pixel outside the inscribed circle is also outside the (slightly
smaller) raster disc that `draw.ellipse` fills. -/
theorem outside_not_inEllipse (x y n : Nat) (h : outsideInscribedCircle x y n) :
    inEllipse x y n = false := by
  unfold outsideInscribedCircle at h
  unfold inEllipse
  rw [decide_eq_false_iff_not]
  intro hle
  have hxy : 2 * (x : Int) - ((n : Int) - 1) = 2 * (x : Int) + 1 - (n : Int) := by ring
  have hxy' : 2 * (y : Int) - ((n : Int) - 1) = 2 * (y : Int) + 1 - (n : Int) := by ring
  rw [hxy, hxy'] at hle
  rcases Nat.eq_zero_or_pos n with hn | hn
  · subst hn
    have hx0 : (0 : Int) ≤ (x : Int) := Int.natCast_nonneg x
    have hy0 : (0 : Int) ≤ (y : Int) := Int.natCast_nonneg y
    simp only [Nat.cast_zero] at h hle
    nlinarith [sq_nonneg ((x : Int)), sq_nonneg ((y : Int)), mul_nonneg hx0 hy0]
  · have hn' : (1 : Int) ≤ (n : Int) := by exact_mod_cast hn
    have : ((n : Int) - 1) ^ 2 ≤ ((n : Int)) ^ 2 := by nlinarith
    linarith

/-- The Python offset `(canvas_size - 2*canvas_size) // 2` equals
`-((canvas_size + 1) / 2)` in natural arithmetic. -/
theorem scOffset_eq (n : Nat) : scOffset n = -(((n + 1) / 2 : Nat) : Int) := by
  unfold scOffset scNewSize
  rw [Int.fdiv_eq_ediv _ (by decide)]
  omega

/-- The offset is strictly negative as soon as the canvas is nonempty. -/
theorem scOffset_neg (n : Nat) (h : 0 < n) : scOffset n < 0 := by
  rw [scOffset_eq]
  omega

/-- Both variants of `create_circular_icon` return a canvas of exactly
the requested square size. -/
theorem cci_width (k : Kernel) (logo : Img) (size : Nat) (r : Bool) :
    (create_circular_icon k logo size r).width = size := by
  cases r <;> rfl

theorem cci_height (k : Kernel) (logo : Img) (size : Nat) (r : Bool) :
    (create_circular_icon k logo size r).height = size := by
  cases r <;> rfl

/-- Pointwise description of the standard (non-round) circular icon: on
the centred logo square, the background (black disc over transparency) is
mask-blended with the resized logo by the logo alpha; elsewhere the
background shows through untouched. -/
theorem cci_pix_eq (k : Kernel) (logo : Img) (size x y : Nat) :
    (create_circular_icon k logo size false).pix x y =
      if logoPos size ≤ x ∧ x < logoPos size + logoSize size ∧
         logoPos size ≤ y ∧ y < logoPos size + logoSize size then
        blendPix (if inEllipse x y size then blackPix else clearPix)
          ((Img.resize k logo (logoSize size) (logoSize size)).pix
            (x - logoPos size) (y - logoPos size))
          (((Img.resize k logo (logoSize size) (logoSize size)).pix
            (x - logoPos size) (y - logoPos size)).a)
      else if inEllipse x y size then blackPix else clearPix := by
  have e : create_circular_icon k logo size false
      = pasteMask (drawCircle (Img.new size size clearPix) blackPix)
          (Img.resize k logo (logoSize size) (logoSize size))
          ((logoPos size : Int)) ((logoPos size : Int))
          (fun u v => ((Img.resize k logo (logoSize size) (logoSize size)).pix u v).a) := rfl
  rw [e, pasteMask_pix_nat]
  rfl

/-- Pointwise description of the round circular icon: the composite is
re-pasted through the hard circular mask over a fresh transparent canvas. -/
theorem cci_round_pix_eq (k : Kernel) (logo : Img) (size x y : Nat) :
    (create_circular_icon k logo size true).pix x y =
      if x < size ∧ y < size then
        blendPix clearPix ((create_circular_icon k logo size false).pix x y)
          (if inEllipse x y size then 255 else 0)
      else clearPix := by
  have e : create_circular_icon k logo size true
      = pasteMask (Img.new size size clearPix) (create_circular_icon k logo size false) 0 0
          (fun u v => if inEllipse u v size then 255 else 0) := rfl
  rw [e, pasteMask_pix_zero]
  rfl

/-- The upscaler output is a canvas of the original size. -/
theorem scale_width (k : Kernel) (img : Img) (n : Nat) : (scale_icon k img n).width = n := rfl

theorem scale_height (k : Kernel) (img : Img) (n : Nat) : (scale_icon k img n).height = n := rfl

/-- Pointwise description of the upscaler: canvas pixel `(x, y)` shows
the doubled image at coordinate `(x + (n+1)/2, y + (n+1)/2)` blended over
transparency by its own alpha; the first `(n+1)/2` rows and columns of
the doubled image are clipped away by the negative offset. -/
theorem scale_pix_eq (k : Kernel) (img : Img) (n x y : Nat) :
    (scale_icon k img n).pix x y =
      if x + (n + 1) / 2 < 2 * n ∧ y + (n + 1) / 2 < 2 * n then
        blendPix clearPix
          ((Img.resize k img (2 * n) (2 * n)).pix (x + (n + 1) / 2) (y + (n + 1) / 2))
          (((Img.resize k img (2 * n) (2 * n)).pix (x + (n + 1) / 2) (y + (n + 1) / 2)).a)
      else clearPix := by
  have e : scale_icon k img n
      = pasteMask (Img.new n n clearPix) (Img.resize k img (scNewSize n) (scNewSize n))
          (scOffset n) (scOffset n)
          (fun u v => ((Img.resize k img (scNewSize n) (scNewSize n)).pix u v).a) := rfl
  rw [e, scOffset_eq, pasteMask_pix_neg]
  rfl

/-! ## Concrete fixtures for witnesses -/

/-- A fully opaque white 512 by 512 source image. -/
def wImg : Img := Img.new 512 512 ⟨255, 255, 255, 255⟩

/-- A filesystem on which every path exists and holds `wImg`. -/
def fsAll : FS := ⟨fun _ => true, fun _ => wImg⟩

/-- A filesystem on which no path exists. -/
def fsNone : FS := ⟨fun _ => false, fun _ => wImg⟩

/-- A filesystem missing exactly the `hdpi` destinations of the three
scripts; every other path exists.  All contents are `wImg`. -/
def fsMixed : FS :=
  ⟨fun p => decide ¬(p = mipmapDir "hdpi" ∨ p = drawableDir "hdpi" ∨
      p = drawableNightDir "hdpi" ∨ p = iconPath "hdpi" "ic_launcher.png"),
   fun _ => wImg⟩

/-- A 48 by 48 icon that is transparent except for one half-transparent
white pixel at the centre. -/
def pulseImg : Img :=
  ⟨48, 48, fun x y => if x = 24 ∧ y = 24 then ⟨255, 255, 255, 128⟩ else clearPix⟩

/-! ## The claims -/

/-- C1: for every density in the fixed density table, the file saved by a
successful iteration of any of the three procedures (circular icon
generator, splash logo generator, icon upscaler) is a square image whose
width and height both equal the table pixel value for that density. -/
theorem claim_C1 (k : Kernel) (fs : FS) :
    (∀ d s, (d, s) ∈ ICON_SIZES → fs.pathExists SOURCE_LOGO = true →
      fs.pathExists (mipmapDir d) = true →
      ((ci_main k fs).1.img (standardPath d)).width = s ∧
      ((ci_main k fs).1.img (standardPath d)).height = s ∧
      ((ci_main k fs).1.img (roundPath d)).width = s ∧
      ((ci_main k fs).1.img (roundPath d)).height = s) ∧
    (∀ d s, (d, s) ∈ SPLASH_SIZES → fs.pathExists SPLASH_SOURCE = true →
      (fs.pathExists (drawableDir d) = true →
        ((sp_main k fs).1.img (splashLightPath d)).width = s ∧
        ((sp_main k fs).1.img (splashLightPath d)).height = s) ∧
      (fs.pathExists (drawableNightDir d) = true →
        ((sp_main k fs).1.img (splashDarkPath d)).width = s ∧
        ((sp_main k fs).1.img (splashDarkPath d)).height = s)) ∧
    (∀ d s n, (d, s) ∈ DENSITIES → n ∈ ICON_NAMES →
      fs.pathExists (iconPath d n) = true →
      ((sc_main k fs).1.img (iconPath d n)).width = s ∧
      ((sc_main k fs).1.img (iconPath d n)).height = s) := by
  refine ⟨?_, ?_, ?_⟩
  · intro d s hmem hsrc hdir
    have e : ci_main k fs = runJobs (ciJobs k) (fs, []) := by simp [ci_main, hsrc]
    rw [e, (ci_img_std k fs d s hmem hdir).1, (ci_img_rnd k fs d s hmem hdir).1]
    exact ⟨cci_width k _ s false, cci_height k _ s false, cci_width k _ s true,
      cci_height k _ s true⟩
  · intro d s hmem hsrc
    have e : sp_main k fs = runJobs (spJobs k) (fs, []) := by simp [sp_main, hsrc]
    constructor
    · intro hdir
      rw [e, (sp_img_light k fs d s hmem hdir).1]
      exact ⟨rfl, rfl⟩
    · intro hdir
      rw [e, (sp_img_dark k fs d s hmem hdir).1]
      exact ⟨rfl, rfl⟩
  · intro d s n hmem hn hf
    simp [ICON_NAMES] at hn
    rcases hn with rfl | rfl
    · rw [show sc_main k fs = runJobs (scJobs k) (fs, []) from rfl,
        (sc_img_l k fs d s hmem hf).1]
      exact ⟨scale_width k _ s, scale_height k _ s⟩
    · rw [show sc_main k fs = runJobs (scJobs k) (fs, []) from rfl,
        (sc_img_r k fs d s hmem hf).1]
      exact ⟨scale_width k _ s, scale_height k _ s⟩

theorem claim_C1_witness :
    (("mdpi", 48) ∈ ICON_SIZES ∧
      ((ci_main nearestK fsAll).1.img (standardPath "mdpi")).width = 48) ∧
    ((sp_main nearestK fsAll).1.img (splashDarkPath "xhdpi")).height = 600 ∧
    ((sc_main nearestK fsAll).1.img (iconPath "hdpi" "ic_launcher_round.png")).width = 72 := by
  refine ⟨⟨by decide, ((claim_C1 nearestK fsAll).1 "mdpi" 48 (by decide) rfl rfl).1⟩, ?_, ?_⟩
  · exact (((claim_C1 nearestK fsAll).2.1 "xhdpi" 600 (by decide) rfl).2 rfl).2
  · exact ((claim_C1 nearestK fsAll).2.2 "hdpi" 72 "ic_launcher_round.png"
      (by decide) (by decide) rfl).2

/-- C2: for every target size and every source logo, the round-variant
icon (`is_round = True`) has zero alpha at every pixel of the
size-by-size output that lies outside the canvas inscribed circle. -/
theorem claim_C2 (k : Kernel) (logo : Img) (size x y : Nat)
    (hx : x < size) (hy : y < size) (hout : outsideInscribedCircle x y size) :
    ((create_circular_icon k logo size true).pix x y).a = 0 := by
  have hne := outside_not_inEllipse x y size hout
  rw [cci_round_pix_eq, if_pos ⟨hx, hy⟩, hne]
  simp [blendPix_mask_none, clearPix]

theorem claim_C2_witness :
    (0 < 48 ∧ outsideInscribedCircle 0 0 48) ∧
    ((create_circular_icon nearestK wImg 48 true).pix 0 0).a = 0 :=
  ⟨⟨by decide, by decide⟩, claim_C2 nearestK wImg 48 0 0 (by decide) (by decide) (by decide)⟩

/-- C3: if the fixed source-logo path does not exist when `main` runs,
the circular icon generator and the splash logo generator each print an
error and return immediately, with the filesystem untouched (zero output
files written, no density processed). -/
theorem claim_C3 (k : Kernel) (fs1 fs2 : FS)
    (h1 : fs1.pathExists SOURCE_LOGO = false)
    (h2 : fs2.pathExists SPLASH_SOURCE = false) :
    ci_main k fs1 = (fs1, [ciErrMsg]) ∧ sp_main k fs2 = (fs2, [spErrMsg]) := by
  constructor
  · simp [ci_main, h1]
  · simp [sp_main, h2]

theorem claim_C3_witness :
    ci_main nearestK fsNone = (fsNone, [ciErrMsg]) ∧
    sp_main nearestK fsNone = (fsNone, [spErrMsg]) :=
  claim_C3 nearestK fsNone fsNone rfl rfl

/-- C4: whenever a single destination directory (circular icon, splash)
or input file (upscaler) does not exist, exactly that item is skipped
with a printed warning while every other item with an existing
destination is still processed; a missing directory for one density
never prevents another density from being written. -/
theorem claim_C4 (k : Kernel) (fs : FS) :
    (∀ d s, (d, s) ∈ ICON_SIZES → fs.pathExists SOURCE_LOGO = true →
      (fs.pathExists (mipmapDir d) = false →
        (ci_main k fs).1.img (standardPath d) = fs.img (standardPath d) ∧
        (ci_main k fs).1.img (roundPath d) = fs.img (roundPath d) ∧
        ciWarnMsg d ∈ (ci_main k fs).2) ∧
      (fs.pathExists (mipmapDir d) = true →
        (ci_main k fs).1.img (standardPath d)
          = create_circular_icon k (fs.img SOURCE_LOGO) s false ∧
        (ci_main k fs).1.img (roundPath d)
          = create_circular_icon k (fs.img SOURCE_LOGO) s true)) ∧
    (∀ d s, (d, s) ∈ SPLASH_SIZES → fs.pathExists SPLASH_SOURCE = true →
      (fs.pathExists (drawableDir d) = false →
        (sp_main k fs).1.img (splashLightPath d) = fs.img (splashLightPath d) ∧
        spWarnMsg (drawableDir d) ∈ (sp_main k fs).2) ∧
      (fs.pathExists (drawableDir d) = true →
        (sp_main k fs).1.img (splashLightPath d)
          = generate_splash_logo k (fs.img SPLASH_SOURCE) s) ∧
      (fs.pathExists (drawableNightDir d) = false →
        (sp_main k fs).1.img (splashDarkPath d) = fs.img (splashDarkPath d) ∧
        spWarnMsg (drawableNightDir d) ∈ (sp_main k fs).2) ∧
      (fs.pathExists (drawableNightDir d) = true →
        (sp_main k fs).1.img (splashDarkPath d)
          = generate_splash_logo k (fs.img SPLASH_SOURCE) s)) ∧
    (∀ d s n, (d, s) ∈ DENSITIES → n ∈ ICON_NAMES →
      (fs.pathExists (iconPath d n) = false →
        (sc_main k fs).1.img (iconPath d n) = fs.img (iconPath d n) ∧
        scWarnMsg (iconPath d n) ∈ (sc_main k fs).2) ∧
      (fs.pathExists (iconPath d n) = true →
        (sc_main k fs).1.img (iconPath d n) = scale_icon k (fs.img (iconPath d n)) s)) := by
  refine ⟨?_, ?_, ?_⟩
  · intro d s hmem hsrc
    have e : ci_main k fs = runJobs (ciJobs k) (fs, []) := by simp [ci_main, hsrc]
    constructor
    · intro hdir
      have h := ci_skip k fs d s hmem hdir
      exact ⟨by rw [e]; exact h.1, by rw [e]; exact h.2.1, by rw [e]; exact h.2.2⟩
    · intro hdir
      exact ⟨by rw [e]; exact (ci_img_std k fs d s hmem hdir).1,
        by rw [e]; exact (ci_img_rnd k fs d s hmem hdir).1⟩
  · intro d s hmem hsrc
    have e : sp_main k fs = runJobs (spJobs k) (fs, []) := by simp [sp_main, hsrc]
    refine ⟨?_, ?_, ?_, ?_⟩
    · intro hdir
      have h := sp_skip_light k fs d s hmem hdir
      exact ⟨by rw [e]; exact h.1, by rw [e]; exact h.2⟩
    · intro hdir
      rw [e]
      exact (sp_img_light k fs d s hmem hdir).1
    · intro hdir
      have h := sp_skip_dark k fs d s hmem hdir
      exact ⟨by rw [e]; exact h.1, by rw [e]; exact h.2⟩
    · intro hdir
      rw [e]
      exact (sp_img_dark k fs d s hmem hdir).1
  · intro d s n hmem hn
    have e : sc_main k fs = runJobs (scJobs k) (fs, []) := rfl
    simp [ICON_NAMES] at hn
    rcases hn with rfl | rfl
    · exact ⟨fun hf => (by rw [e]; exact ⟨(sc_skip_l k fs d s hmem hf).1,
          (sc_skip_l k fs d s hmem hf).2⟩),
        fun hf => (by rw [e]; exact (sc_img_l k fs d s hmem hf).1)⟩
    · exact ⟨fun hf => (by rw [e]; exact ⟨(sc_skip_r k fs d s hmem hf).1,
          (sc_skip_r k fs d s hmem hf).2⟩),
        fun hf => (by rw [e]; exact (sc_img_r k fs d s hmem hf).1)⟩

theorem claim_C4_witness :
    fsMixed.pathExists (mipmapDir "hdpi") = false ∧
    (ci_main nearestK fsMixed).1.img (standardPath "hdpi")
      = fsMixed.img (standardPath "hdpi") ∧
    ciWarnMsg "hdpi" ∈ (ci_main nearestK fsMixed).2 ∧
    (ci_main nearestK fsMixed).1.img (standardPath "mdpi")
      = create_circular_icon nearestK (fsMixed.img SOURCE_LOGO) 48 false ∧
    (sp_main nearestK fsMixed).1.img (splashDarkPath "hdpi")
      = fsMixed.img (splashDarkPath "hdpi") ∧
    (sc_main nearestK fsMixed).1.img (iconPath "mdpi" "ic_launcher.png")
      = scale_icon nearestK (fsMixed.img (iconPath "mdpi" "ic_launcher.png")) 48 := by
  have h := claim_C4 nearestK fsMixed
  refine ⟨by decide, ?_, ?_, ?_, ?_, ?_⟩
  · exact ((h.1 "hdpi" 72 (by decide) (by decide)).1 (by decide)).1
  · exact ((h.1 "hdpi" 72 (by decide) (by decide)).1 (by decide)).2.2
  · exact ((h.1 "mdpi" 48 (by decide) (by decide)).2 (by decide)).1
  · exact ((h.2.1 "hdpi" 450 (by decide) (by decide)).2.2.1 (by decide)).1
  · exact (h.2.2 "mdpi" 48 "ic_launcher.png" (by decide) (by decide)).2 (by decide)

/-- When the source exists, the circular icon main is exactly its job run. -/
theorem ci_main_eq_run (k : Kernel) (fs : FS) (h : fs.pathExists SOURCE_LOGO = true) :
    ci_main k fs = runJobs (ciJobs k) (fs, []) := by
  unfold ci_main
  rw [h]
  simp

/-- When the source exists, the splash main is exactly its job run. -/
theorem sp_main_eq_run (k : Kernel) (fs : FS) (h : fs.pathExists SPLASH_SOURCE = true) :
    sp_main k fs = runJobs (spJobs k) (fs, []) := by
  unfold sp_main
  rw [h]
  simp

/-- C5: running the circular icon generator or the splash logo generator
a second time over the filesystem produced by the first run writes
byte-identical contents at every table output path: each output is a pure
function of the stored source image and the fixed parameter table, both
of which the first run leaves untouched. -/
theorem claim_C5 (k : Kernel) (fs : FS) :
    (∀ d s, (d, s) ∈ ICON_SIZES →
      (ci_main k (ci_main k fs).1).1.img (standardPath d)
        = (ci_main k fs).1.img (standardPath d) ∧
      (ci_main k (ci_main k fs).1).1.img (roundPath d)
        = (ci_main k fs).1.img (roundPath d)) ∧
    (∀ d s, (d, s) ∈ SPLASH_SIZES →
      (sp_main k (sp_main k fs).1).1.img (splashLightPath d)
        = (sp_main k fs).1.img (splashLightPath d) ∧
      (sp_main k (sp_main k fs).1).1.img (splashDarkPath d)
        = (sp_main k fs).1.img (splashDarkPath d)) := by
  constructor
  · intro d s hmem
    rcases Bool.eq_false_or_eq_true (fs.pathExists SOURCE_LOGO) with hsrc | hsrc
    · have e1 : ci_main k fs = runJobs (ciJobs k) (fs, []) := by simp [ci_main, hsrc]
      have hsrc1 : (ci_main k fs).1.pathExists SOURCE_LOGO = true := by
        rw [e1, (ci_preserve k fs).2.1]
        exact hsrc
      have hsrcimg : (ci_main k fs).1.img SOURCE_LOGO = fs.img SOURCE_LOGO := by
        rw [e1]
        exact (ci_preserve k fs).1
      have hdirp : (ci_main k fs).1.pathExists (mipmapDir d) = fs.pathExists (mipmapDir d) := by
        rw [e1]
        exact (ci_preserve k fs).2.2 d s hmem
      have e2 : ci_main k (ci_main k fs).1 = runJobs (ciJobs k) ((ci_main k fs).1, []) :=
        ci_main_eq_run k (ci_main k fs).1 hsrc1
      rcases Bool.eq_false_or_eq_true (fs.pathExists (mipmapDir d)) with hdir | hdir
      · have hdir1 : (ci_main k fs).1.pathExists (mipmapDir d) = true := by
          rw [hdirp]; exact hdir
        constructor
        · rw [e2, (ci_img_std k (ci_main k fs).1 d s hmem hdir1).1, hsrcimg, e1,
            (ci_img_std k fs d s hmem hdir).1]
        · rw [e2, (ci_img_rnd k (ci_main k fs).1 d s hmem hdir1).1, hsrcimg, e1,
            (ci_img_rnd k fs d s hmem hdir).1]
      · have hdir1 : (ci_main k fs).1.pathExists (mipmapDir d) = false := by
          rw [hdirp]; exact hdir
        have hs := ci_skip k (ci_main k fs).1 d s hmem hdir1
        exact ⟨by rw [e2]; exact hs.1, by rw [e2]; exact hs.2.1⟩
    · have e1 : ci_main k fs = (fs, [ciErrMsg]) := by simp [ci_main, hsrc]
      constructor <;> simp [e1, ci_main, hsrc]
  · intro d s hmem
    rcases Bool.eq_false_or_eq_true (fs.pathExists SPLASH_SOURCE) with hsrc | hsrc
    · have e1 : sp_main k fs = runJobs (spJobs k) (fs, []) := by simp [sp_main, hsrc]
      have hsrc1 : (sp_main k fs).1.pathExists SPLASH_SOURCE = true := by
        rw [e1, (sp_preserve k fs).2.1]
        exact hsrc
      have hsrcimg : (sp_main k fs).1.img SPLASH_SOURCE = fs.img SPLASH_SOURCE := by
        rw [e1]
        exact (sp_preserve k fs).1
      have hdl : (sp_main k fs).1.pathExists (drawableDir d) = fs.pathExists (drawableDir d) := by
        rw [e1]
        exact ((sp_preserve k fs).2.2 d s hmem).1
      have hdd : (sp_main k fs).1.pathExists (drawableNightDir d)
          = fs.pathExists (drawableNightDir d) := by
        rw [e1]
        exact ((sp_preserve k fs).2.2 d s hmem).2
      have e2 : sp_main k (sp_main k fs).1 = runJobs (spJobs k) ((sp_main k fs).1, []) :=
        sp_main_eq_run k (sp_main k fs).1 hsrc1
      constructor
      · rcases Bool.eq_false_or_eq_true (fs.pathExists (drawableDir d)) with hdir | hdir
        · have hdir1 : (sp_main k fs).1.pathExists (drawableDir d) = true := by
            rw [hdl]; exact hdir
          rw [e2, (sp_img_light k (sp_main k fs).1 d s hmem hdir1).1, hsrcimg, e1,
            (sp_img_light k fs d s hmem hdir).1]
        · have hdir1 : (sp_main k fs).1.pathExists (drawableDir d) = false := by
            rw [hdl]; exact hdir
          rw [e2]
          exact (sp_skip_light k (sp_main k fs).1 d s hmem hdir1).1
      · rcases Bool.eq_false_or_eq_true (fs.pathExists (drawableNightDir d)) with hdir | hdir
        · have hdir1 : (sp_main k fs).1.pathExists (drawableNightDir d) = true := by
            rw [hdd]; exact hdir
          rw [e2, (sp_img_dark k (sp_main k fs).1 d s hmem hdir1).1, hsrcimg, e1,
            (sp_img_dark k fs d s hmem hdir).1]
        · have hdir1 : (sp_main k fs).1.pathExists (drawableNightDir d) = false := by
            rw [hdd]; exact hdir
          rw [e2]
          exact (sp_skip_dark k (sp_main k fs).1 d s hmem hdir1).1
    · have e1 : sp_main k fs = (fs, [spErrMsg]) := by simp [sp_main, hsrc]
      constructor <;> simp [e1, sp_main, hsrc]

theorem claim_C5_witness :
    (ci_main nearestK (ci_main nearestK fsAll).1).1.img (standardPath "xxxhdpi")
      = (ci_main nearestK fsAll).1.img (standardPath "xxxhdpi") ∧
    (sp_main nearestK (sp_main nearestK fsAll).1).1.img (splashLightPath "mdpi")
      = (sp_main nearestK fsAll).1.img (splashLightPath "mdpi") :=
  ⟨((claim_C5 nearestK fsAll).1 "xxxhdpi" 192 (by decide)).1,
   ((claim_C5 nearestK fsAll).2 "mdpi" 300 (by decide)).1⟩

/-- C10: for every density whose light-mode and dark-mode drawable
directories both exist, one run of the splash logo generator writes
identical contents to the two `splashscreen_logo.png` destinations: both
are the same resize of the same source at the same size. -/
theorem claim_C10 (k : Kernel) (fs : FS) (d : String) (s : Nat)
    (hmem : (d, s) ∈ SPLASH_SIZES) (hsrc : fs.pathExists SPLASH_SOURCE = true)
    (hl : fs.pathExists (drawableDir d) = true)
    (hd : fs.pathExists (drawableNightDir d) = true) :
    (sp_main k fs).1.img (splashLightPath d) = (sp_main k fs).1.img (splashDarkPath d) := by
  have e : sp_main k fs = runJobs (spJobs k) (fs, []) := by simp [sp_main, hsrc]
  rw [e, (sp_img_light k fs d s hmem hl).1, (sp_img_dark k fs d s hmem hd).1]

theorem claim_C10_witness :
    (sp_main nearestK fsAll).1.img (splashLightPath "xxhdpi")
      = (sp_main nearestK fsAll).1.img (splashDarkPath "xxhdpi") :=
  claim_C10 nearestK fsAll "xxhdpi" 900 (by decide) rfl rfl rfl

/-- C6: there is an input icon for which a second run of the upscaler
`scale_icon` (feeding the first output back in at the same canvas size)
produces an output that differs from the first-run result: the enlarging
effect compounds instead of stabilising.  Exhibited with the concrete
sampling kernel: the half-transparent centre pixel has its alpha sent
from 128 to 64 by the first run and on to 16 by the second (the masked
paste multiplies each pixel by its own alpha). -/
theorem claim_C6 :
    ∃ icon : Img,
      scale_icon nearestK (scale_icon nearestK icon 48) 48 ≠ scale_icon nearestK icon 48 := by
  refine ⟨pulseImg, fun h => ?_⟩
  have h24 := congrArg (fun i => (i.pix 24 24).a) h
  exact absurd h24 (by decide)

/-- C7: for every target size, `create_circular_icon` allocates a
transparent square canvas of the target size, draws an opaque solid black
filled circle spanning it, resizes the source logo to
`int(size * 0.72)` pixels square, and pastes it centred using the logo
alpha as mask: on the centred logo square the background is mask-blended
with the logo by the logo alpha (alpha 255 pixels overwrite, alpha 0
pixels leave the circle), and elsewhere the circle-over-transparency
background is untouched. -/
theorem claim_C7 (k : Kernel) (logo : Img) (size x y : Nat) :
    (create_circular_icon k logo size false).width = size ∧
    (create_circular_icon k logo size false).height = size ∧
    (Img.resize k logo (logoSize size) (logoSize size)).width = logoSize size ∧
    (Img.resize k logo (logoSize size) (logoSize size)).height = logoSize size ∧
    ((create_circular_icon k logo size false).pix x y =
      if logoPos size ≤ x ∧ x < logoPos size + logoSize size ∧
         logoPos size ≤ y ∧ y < logoPos size + logoSize size then
        blendPix (if inEllipse x y size then blackPix else clearPix)
          ((Img.resize k logo (logoSize size) (logoSize size)).pix
            (x - logoPos size) (y - logoPos size))
          (((Img.resize k logo (logoSize size) (logoSize size)).pix
            (x - logoPos size) (y - logoPos size)).a)
      else if inEllipse x y size then blackPix else clearPix) ∧
    ((logoPos size ≤ x ∧ x < logoPos size + logoSize size ∧
      logoPos size ≤ y ∧ y < logoPos size + logoSize size) →
      ((((Img.resize k logo (logoSize size) (logoSize size)).pix
          (x - logoPos size) (y - logoPos size)).a = 255 →
        (create_circular_icon k logo size false).pix x y
          = (Img.resize k logo (logoSize size) (logoSize size)).pix
              (x - logoPos size) (y - logoPos size)) ∧
       (((Img.resize k logo (logoSize size) (logoSize size)).pix
          (x - logoPos size) (y - logoPos size)).a = 0 →
        (create_circular_icon k logo size false).pix x y
          = if inEllipse x y size then blackPix else clearPix))) := by
  refine ⟨rfl, rfl, rfl, rfl, cci_pix_eq k logo size x y, ?_⟩
  intro hbox
  constructor
  · intro ha
    rw [cci_pix_eq, if_pos hbox, ha, blendPix_mask_full]
  · intro ha
    rw [cci_pix_eq, if_pos hbox, ha, blendPix_mask_none]

theorem claim_C7_witness :
    (logoPos 48 ≤ 24 ∧ 24 < logoPos 48 + logoSize 48 ∧
     logoPos 48 ≤ 24 ∧ 24 < logoPos 48 + logoSize 48) ∧
    (create_circular_icon nearestK wImg 48 false).pix 24 24
      = (Img.resize nearestK wImg (logoSize 48) (logoSize 48)).pix
          (24 - logoPos 48) (24 - logoPos 48) := by
  refine ⟨by decide, ?_⟩
  exact ((claim_C7 nearestK wImg 48 24 24).2.2.2.2.2 (by decide)).1 (by decide)

/-- C8: for every icon it processes, `scale_icon` resizes the icon to
twice the canvas edge (`int(size * 2.0) = 2 * size`), allocates a fresh
transparent canvas at the original size, computes a centring offset that
is strictly negative (so the doubled image is clipped at the edges),
pastes the oversized image with its own alpha as mask, and the run saves
the result over the very path it was read from. -/
theorem claim_C8 (k : Kernel) (fs : FS) (img : Img) (size x y : Nat) :
    (scale_icon k img size).width = size ∧
    (scale_icon k img size).height = size ∧
    scNewSize size = 2 * size ∧
    (Img.resize k img (scNewSize size) (scNewSize size)).width = 2 * size ∧
    (0 < size → scOffset size < 0) ∧
    ((scale_icon k img size).pix x y =
      if x + (size + 1) / 2 < 2 * size ∧ y + (size + 1) / 2 < 2 * size then
        blendPix clearPix
          ((Img.resize k img (2 * size) (2 * size)).pix
            (x + (size + 1) / 2) (y + (size + 1) / 2))
          (((Img.resize k img (2 * size) (2 * size)).pix
            (x + (size + 1) / 2) (y + (size + 1) / 2)).a)
      else clearPix) ∧
    (∀ d s n, (d, s) ∈ DENSITIES → n ∈ ICON_NAMES →
      fs.pathExists (iconPath d n) = true →
      (sc_main k fs).1.img (iconPath d n) = scale_icon k (fs.img (iconPath d n)) s) := by
  refine ⟨rfl, rfl, rfl, rfl, fun h => scOffset_neg size h, scale_pix_eq k img size x y, ?_⟩
  intro d s n hmem hn hf
  simp [ICON_NAMES] at hn
  rcases hn with rfl | rfl
  · exact (sc_img_l k fs d s hmem hf).1
  · exact (sc_img_r k fs d s hmem hf).1

theorem claim_C8_witness :
    (0 < 48 ∧ scOffset 48 < 0) ∧
    (sc_main nearestK fsAll).1.img (iconPath "xhdpi" "ic_launcher.png")
      = scale_icon nearestK (fsAll.img (iconPath "xhdpi" "ic_launcher.png")) 96 := by
  refine ⟨⟨by decide, ?_⟩, ?_⟩
  · exact (claim_C8 nearestK fsAll wImg 48 0 0).2.2.2.2.1 (by decide)
  · exact (claim_C8 nearestK fsAll wImg 48 0 0).2.2.2.2.2.2 "xhdpi" 96 "ic_launcher.png"
      (by decide) (by decide) rfl

/-- C9 counterexample: the claim "the standard (non-round) icon is
transparent at every pixel outside the drawn circle, for every source
logo" fails on the code: with a fully opaque source logo at size 192 the
corner `(27, 27)` of the centred logo square lies outside the inscribed
circle, yet the pasted opaque logo pixel gives it alpha 255. -/
theorem claim_C9_counterexample :
    outsideInscribedCircle 27 27 192 ∧ 27 < 192 ∧
    ((create_circular_icon nearestK wImg 192 false).pix 27 27).a = 255 := by
  refine ⟨by decide, by decide, ?_⟩
  decide

/-- C9 (amended): the standard icon is transparent at every pixel
outside the inscribed circle that is, in addition, either outside the
centred pasted-logo square or covered by a resized-logo pixel of zero
alpha; the square canvas corners outside the logo square keep exactly the
transparency of the initial transparent-canvas-plus-circle step. -/
theorem claim_C9 (k : Kernel) (logo : Img) (size x y : Nat)
    (hout : outsideInscribedCircle x y size)
    (hlogo : ¬(logoPos size ≤ x ∧ x < logoPos size + logoSize size ∧
        logoPos size ≤ y ∧ y < logoPos size + logoSize size) ∨
      ((Img.resize k logo (logoSize size) (logoSize size)).pix
        (x - logoPos size) (y - logoPos size)).a = 0) :
    ((create_circular_icon k logo size false).pix x y).a = 0 := by
  have hne := outside_not_inEllipse x y size hout
  rw [cci_pix_eq]
  rcases hlogo with hbox | ha
  · rw [if_neg hbox, hne]
    simp [clearPix]
  · by_cases hbox : (logoPos size ≤ x ∧ x < logoPos size + logoSize size ∧
        logoPos size ≤ y ∧ y < logoPos size + logoSize size)
    · rw [if_pos hbox, ha, blendPix_mask_none, hne]
      simp [clearPix]
    · rw [if_neg hbox, hne]
      simp [clearPix]

theorem claim_C9_witness :
    outsideInscribedCircle 0 0 48 ∧
    ((create_circular_icon nearestK wImg 48 false).pix 0 0).a = 0 :=
  ⟨by decide, claim_C9 nearestK wImg 48 0 0 (by decide) (Or.inl (by decide))⟩
